import Mathlib

/-! QtAV `AVDemuxThread` : a shallow embedding.

The demux coordinator of `src/Qt5AV/AVDemuxThread.cpp` is embedded as pure
functions over an explicit state record.  The collaborators whose code is
not part of that file (`Packet`, `BlockingQueue`, `AVThread`, `AVDemuxer`)
are modelled from the interface the specification gives for them; every
such definition says so in its doc comment.

Conventions of the embedding:

* a method `void AVDemuxThread::m(args)` becomes `AVDemuxThread.m : AVDemuxThread → args → AVDemuxThread`;
* a method that contains a `Q_ASSERT` returns `Option`, `none` being the failed assertion;
* a `while` loop that waits for a collaborator takes a fuel argument and
  returns `none` when the fuel runs out;
* consumer threads are not run: the `queue` field of a packet queue is the
  sequence of packets handed to the consumer since the last `clear()`;
* the locals `aqueue` and `vqueue` of `run()` are pointers that outlive a
  change of the members `audio_thread` / `video_thread`; they are kept in the
  state record as the address of the pipeline whose queue they point to, and
  a pipeline that `setAVThread` has replaced stays in the record
  (`detached_audio`, `detached_video`) so that such a pointer can be followed;
* the audio and the video pipeline are kept as separate objects;
* `qDebug` output and mutex / condition-variable operations have no effect
  on the modelled state and are left out.
-/

namespace QtAV

/-! ## Collaborators -/

/-- Modelled from the spec: a packet is an opaque data unit (here a payload
identifier) together with the "is end marker" flag; `Packet.h` is not part of
the sources. -/
structure Packet where
  data : Nat
  is_end : Bool
deriving DecidableEq, Repr

/-- Modelled from the spec: the default constructed `Packet()` that the
coordinator pushes as flush boundary is the sentinel end marker, carrying no
payload. -/
def Packet.default : Packet := { data := 0, is_end := true }

/-- Modelled from the spec: `Packet::isEnd()`. -/
def Packet.isEnd (p : Packet) : Bool := p.is_end

/-- Modelled from the spec: the `BlockingQueue<T>` template (`BlockingQueue.h`
is not part of the sources): an ordered sequence, a capacity, a low watermark,
the "blocking" enable flag, the independent "block when full" flag and the
optional empty-transition callback (recorded as present / absent). -/
structure BlockingQueue (α : Type) where
  queue : List α
  cap : Nat
  thres : Nat
  blocking : Bool
  block_full : Bool
  empty_callback : Bool
deriving DecidableEq, Repr

namespace BlockingQueue

variable {α : Type}

/-- Modelled from the spec: `size()`. -/
def size (q : BlockingQueue α) : Nat := q.queue.length

/-- Modelled from the spec: `capacity()`. -/
def capacity (q : BlockingQueue α) : Nat := q.cap

/-- Modelled from the spec: `isEmpty()`. -/
def isEmpty (q : BlockingQueue α) : Bool := q.queue.isEmpty

/-- Modelled from the spec: `is_enough()` is true when the length is above the
low-watermark threshold. -/
def isEnough (q : BlockingQueue α) : Bool := decide (q.thres < q.queue.length)

/-- Modelled from the spec: `setCapacity(n)`. -/
def setCapacity (q : BlockingQueue α) (n : Nat) : BlockingQueue α := { q with cap := n }

/-- Modelled from the spec: `set_block_when_full(bool)`. -/
def blockFull (q : BlockingQueue α) (b : Bool) : BlockingQueue α := { q with block_full := b }

/-- Modelled from the spec: `setBlocking(bool)`. -/
def setBlocking (q : BlockingQueue α) (b : Bool) : BlockingQueue α := { q with blocking := b }

/-- Modelled from the spec: `setEmptyCallback(cb)` registers the
empty-transition callback. -/
def setEmptyCallback (q : BlockingQueue α) : BlockingQueue α := { q with empty_callback := true }

/-- Modelled from the spec: `clear()` discards all queued items and does not
affect the `blocking` / `block_when_full` flags. -/
def clear (q : BlockingQueue α) : BlockingQueue α := { q with queue := [] }

/-- Modelled from the spec: `push(packet)` appends at the tail.  A push that
suspends on a full queue appends once the consumer has made room; as consumers
are not run, the model appends at once. -/
def put (q : BlockingQueue α) (x : α) : BlockingQueue α := { q with queue := q.queue ++ [x] }

/-- Modelled from the spec: `take_if_any()` removes and returns the oldest
stored item, or returns none. -/
def take (q : BlockingQueue α) : Option α × BlockingQueue α :=
  match q.queue with
  | [] => (none, q)
  | x :: rest => (some x, { q with queue := rest })

end BlockingQueue

/-- The queue type of a pipeline, `PacketQueue` in the source. -/
abbrev PacketQueue := BlockingQueue Packet

/-- Modelled from the spec: a consumer pipeline (`AVThread.h` is not part of
the sources).  `addr` stands for the object's address (pointer identity),
`wait_ticks` is the number of timed waits the pipeline still needs before it
reports not-running once it winds down (the spec's assumption that a pipeline
eventually reports not-running), and the two `conn_` counters are the numbers
of connections from its `frameDelivered()` signal to the coordinator's two
slots. -/
structure AVThread where
  addr : Nat
  packets : PacketQueue
  demux_ended : Bool
  paused : Bool
  running : Bool
  stop_requested : Bool
  wait_ticks : Nat
  conn_seek_on_pause : Nat
  conn_next_frame : Nat
deriving DecidableEq, Repr

namespace AVThread

/-- Modelled from the spec: `queue()`. -/
def packetQueue (t : AVThread) : PacketQueue := t.packets

/-- Apply a queue operation to the pipeline's queue: `t->packetQueue()->op()`. -/
def onQueue (t : AVThread) (f : PacketQueue → PacketQueue) : AVThread :=
  { t with packets := f t.packets }

/-- Modelled from the spec: `set_source_ended(bool)`. -/
def setDemuxEnded (t : AVThread) (b : Bool) : AVThread := { t with demux_ended := b }

/-- Modelled from the spec: `pause(bool)`. -/
def pause (t : AVThread) (b : Bool) : AVThread := { t with paused := b }

/-- Modelled from the spec: `is_running()`. -/
def isRunning (t : AVThread) : Bool := t.running

/-- Modelled from the spec: `start()` makes the pipeline run. -/
def start (t : AVThread) : AVThread := { t with running := true }

/-- Modelled from the spec: `stop()` requests the pipeline to stop; the
pipeline need not react at once. -/
def stop (t : AVThread) : AVThread := { t with stop_requested := true }

/-- Modelled from the spec: `wait(timeout)` is a bounded wait; after finitely
many of them the pipeline reports not-running. -/
def wait (t : AVThread) : AVThread :=
  match t.wait_ticks with
  | 0 => { t with running := false }
  | n + 1 => { t with wait_ticks := n }

end AVThread

/-- Modelled from the spec: the source reader (`AVDemuxer.h` is not part of
the sources).  `frames` lists the outcomes of the coming `readFrame()` calls
(`none`: no data right now; an exhausted list reads as "no data" forever),
`seeks` logs the positions `seek` was invoked with. -/
structure AVDemuxer where
  frames : List (Option (Int × Packet))
  cur_stream : Int
  cur_packet : Packet
  audio_stream : Int
  video_stream : Int
  attached_picture : Bool
  seeks : List Int
deriving DecidableEq, Repr

namespace AVDemuxer

/-- Modelled from the spec: `read_next() -> bool`. -/
def readFrame (d : AVDemuxer) : Bool × AVDemuxer :=
  match d.frames with
  | [] => (false, d)
  | none :: rest => (false, { d with frames := rest })
  | some (i, p) :: rest => (true, { d with frames := rest, cur_stream := i, cur_packet := p })

/-- Modelled from the spec: `current_stream_id()`. -/
def stream (d : AVDemuxer) : Int := d.cur_stream

/-- Modelled from the spec: `current_packet()`. -/
def packet (d : AVDemuxer) : Packet := d.cur_packet

/-- Modelled from the spec: the id of the audio stream. -/
def audioStream (d : AVDemuxer) : Int := d.audio_stream

/-- Modelled from the spec: the id of the video stream. -/
def videoStream (d : AVDemuxer) : Int := d.video_stream

/-- Modelled from the spec: `has_attached_cover_image()`. -/
def hasAttacedPicture (d : AVDemuxer) : Bool := d.attached_picture

/-- Modelled from the spec: `seek(position)`. -/
def seek (d : AVDemuxer) (pos : Int) : AVDemuxer := { d with seeks := d.seeks ++ [pos] }

end AVDemuxer

/-! ## The coordinator -/

/-- The members of `AVDemuxThread`.  `end_` is the member `end`; a seek task
in `seek_tasks` is represented by its position; `clock_pause` logs the values
emitted through the `requestClockPause` signal.  `aqueue` and `vqueue` are the
locals of `run()` of these names: `none` is the null pointer, `some p` points
to the queue of the pipeline at address `p`.  `detached_audio` and
`detached_video` hold the pipelines that were members once and have been
replaced, the latest first. -/
structure AVDemuxThread where
  paused : Bool
  user_paused : Bool
  end_ : Bool
  demuxer : AVDemuxer
  audio_thread : Option AVThread
  video_thread : Option AVThread
  audio_stream : Int
  video_stream : Int
  nb_next_frame : Int
  seek_tasks : BlockingQueue Int
  clock_pause : List Bool
  aqueue : Option Nat
  vqueue : Option Nat
  detached_audio : List AVThread
  detached_video : List AVThread
deriving DecidableEq, Repr

namespace AVDemuxThread

/-- The constructor `AVDemuxThread(QObject*)` followed by `setDemuxer(dmx)`:
not paused, `end` true, no pipelines, step counter 0, a seek slot of
capacity 1 that does not block when full. -/
def new (dmx : AVDemuxer) : AVDemuxThread :=
  { paused := false
    user_paused := false
    end_ := true
    demuxer := dmx
    audio_thread := none
    video_thread := none
    audio_stream := 0
    video_stream := 0
    nb_next_frame := 0
    seek_tasks :=
      (BlockingQueue.blockFull
        (BlockingQueue.setCapacity
          { queue := [], cap := 0, thres := 0, blocking := true, block_full := true,
            empty_callback := false } 1) false)
    clock_pause := []
    aqueue := none
    vqueue := none
    detached_audio := []
    detached_video := [] }

/-- The statement shape `if (audio_thread) { audio_thread->... }`. -/
def onAudio (d : AVDemuxThread) (f : AVThread → AVThread) : AVDemuxThread :=
  match d.audio_thread with
  | some t => { d with audio_thread := some (f t) }
  | none => d

/-- The statement shape `if (video_thread) { video_thread->... }`. -/
def onVideo (d : AVDemuxThread) (f : AVThread → AVThread) : AVDemuxThread :=
  match d.video_thread with
  | some t => { d with video_thread := some (f t) }
  | none => d

/-- The expression `video_thread ? video_thread : audio_thread`. -/
def videoOrAudio (d : AVDemuxThread) : Option AVThread :=
  match d.video_thread with
  | some t => some t
  | none => d.audio_thread

/-- Apply `f` to the pipeline selected by `video_thread ? video_thread : audio_thread`. -/
def onVideoOrAudio (d : AVDemuxThread) (f : AVThread → AVThread) : AVDemuxThread :=
  match d.video_thread with
  | some t => { d with video_thread := some (f t) }
  | none => d.onAudio f

/-- The function `setAVThread(pOld, pNew)`: the new value of the member `pOld`,
and the replaced pipelines, to which the old one (stopped if it was running)
is added in front. -/
def setAVThread (pOld pNew : Option AVThread) (detached : List AVThread) :
    Option AVThread × List AVThread :=
  if pOld.map AVThread.addr = pNew.map AVThread.addr then (pOld, detached)
  else
    let detached :=
      match pOld with
      | some o => (if o.isRunning then o.stop else o) :: detached
      | none => detached
    match pNew with
    | none => (none, detached)
    | some t => (some (t.onQueue BlockingQueue.setEmptyCallback), detached)

/-- The function `setAudioThread`. -/
def setAudioThread (d : AVDemuxThread) (thread : Option AVThread) : AVDemuxThread :=
  { d with
    audio_thread := (setAVThread d.audio_thread thread d.detached_audio).1
    detached_audio := (setAVThread d.audio_thread thread d.detached_audio).2 }

/-- The function `setVideoThread`. -/
def setVideoThread (d : AVDemuxThread) (thread : Option AVThread) : AVDemuxThread :=
  { d with
    video_thread := (setAVThread d.video_thread thread d.detached_video).1
    detached_video := (setAVThread d.video_thread thread d.detached_video).2 }

/-- The first pipeline of a list that has address `p`. -/
def findAt (p : Nat) (l : List AVThread) : Option AVThread :=
  l.find? (fun o => decide (o.addr = p))

/-- Apply `f` to the first pipeline of a list that has address `p`. -/
def updateAt (p : Nat) (f : AVThread → AVThread) : List AVThread → List AVThread
  | [] => []
  | o :: os => if o.addr = p then f o :: os else o :: updateAt p f os

/-- The pipeline whose queue the local `aqueue` of `run()` points to: the
audio member when it is the pipeline at that address, else the replaced audio
pipeline at that address. -/
def aqueueOwner (d : AVDemuxThread) : Option AVThread :=
  match d.aqueue with
  | none => none
  | some p =>
    if d.audio_thread.map AVThread.addr = some p then d.audio_thread
    else findAt p d.detached_audio

/-- The pipeline whose queue the local `vqueue` of `run()` points to. -/
def vqueueOwner (d : AVDemuxThread) : Option AVThread :=
  match d.vqueue with
  | none => none
  | some p =>
    if d.video_thread.map AVThread.addr = some p then d.video_thread
    else findAt p d.detached_video

/-- The statement shape `if (aqueue) aqueue->f();` and, under a test of
`aqueue`, `aqueue->f();`: `f` is applied to the queue `aqueue` points to, be
it the audio member's or that of a replaced audio pipeline.  (A pointer to a
pipeline the record does not hold is not followed; no event produces one.) -/
def onAqueue (d : AVDemuxThread) (f : PacketQueue → PacketQueue) : AVDemuxThread :=
  match d.aqueue with
  | none => d
  | some p =>
    if d.audio_thread.map AVThread.addr = some p then d.onAudio (fun t => t.onQueue f)
    else { d with detached_audio := updateAt p (fun t => t.onQueue f) d.detached_audio }

/-- The statement shape `if (vqueue) vqueue->f();` and, under a test of
`vqueue`, `vqueue->f();`. -/
def onVqueue (d : AVDemuxThread) (f : PacketQueue → PacketQueue) : AVDemuxThread :=
  match d.vqueue with
  | none => d
  | some p =>
    if d.video_thread.map AVThread.addr = some p then d.onVideo (fun t => t.onQueue f)
    else { d with detached_video := updateAt p (fun t => t.onQueue f) d.detached_video }

/-- The function `pauseInternal`. -/
def pauseInternal (d : AVDemuxThread) (value : Bool) : AVDemuxThread :=
  { d with paused := value }

/-- The function `isPaused`. -/
def isPaused (d : AVDemuxThread) : Bool := d.paused

/-- The function `isEnd`. -/
def isEnd (d : AVDemuxThread) : Bool := d.end_

/-- The function `pause(bool p)`. -/
def pause (d : AVDemuxThread) (p : Bool) : AVDemuxThread :=
  if d.paused = p then d
  else { d with paused := p, user_paused := p }

/-- The function `newSeekRequest`, the task given by its position. -/
def newSeekRequest (d : AVDemuxThread) (r : Int) : AVDemuxThread :=
  let tasks :=
    if d.seek_tasks.size ≥ d.seek_tasks.capacity then d.seek_tasks.take.2
    else d.seek_tasks
  { d with seek_tasks := tasks.put r }

/-- The function `seek(qint64 pos)`. -/
def seek (d : AVDemuxThread) (pos : Int) : AVDemuxThread :=
  let d := { d with end_ := false }
  let d := d.onAudio (fun t => (t.setDemuxEnded false).onQueue BlockingQueue.clear)
  let d := d.onVideo (fun t => (t.setDemuxEnded false).onQueue BlockingQueue.clear)
  d.newSeekRequest pos

/-- The function `seekInternal(qint64 pos)`. -/
def seekInternal (d : AVDemuxThread) (pos : Int) : AVDemuxThread :=
  let d := d.onAudio (fun t => (t.setDemuxEnded false).onQueue BlockingQueue.clear)
  let d := d.onVideo (fun t => (t.setDemuxEnded false).onQueue BlockingQueue.clear)
  let d := { d with demuxer := d.demuxer.seek pos }
  let d := d.onAudio (fun t => (t.onQueue BlockingQueue.clear).onQueue (fun q => q.put Packet.default))
  let d := d.onVideo (fun t => (t.onQueue BlockingQueue.clear).onQueue (fun q => q.put Packet.default))
  if d.isPaused && (d.video_thread.isSome || d.audio_thread.isSome) then
    let d := d.onVideoOrAudio (fun t => t.pause false)
    let d := d.pauseInternal false
    let d := { d with clock_pause := d.clock_pause ++ [false] }
    d.onVideoOrAudio (fun t => { t with conn_seek_on_pause := t.conn_seek_on_pause + 1 })
  else d

/-- The function `processNextSeekTask`. -/
def processNextSeekTask (d : AVDemuxThread) : AVDemuxThread :=
  if d.seek_tasks.isEmpty then d
  else
    match d.seek_tasks.take with
    | (none, _) => d
    | (some position, rest) => seekInternal { d with seek_tasks := rest } position

/-- The loop `while (t->isRunning()) { t->stop(); t->wait(500); }` of `stop()`. -/
def stopThreadLoop : Nat → AVThread → Option AVThread
  | 0, t => if t.isRunning then none else some t
  | fuel + 1, t => if t.isRunning then stopThreadLoop fuel (t.stop.wait) else some t

/-- One of the two blocks `if (x_thread) { ... }` of `stop()`. -/
def stopThread (fuel : Nat) (t : AVThread) : Option AVThread :=
  let t := t.setDemuxEnded true
  let t := t.onQueue BlockingQueue.clear
  let t := t.onQueue (fun q => q.blockFull false)
  stopThreadLoop fuel t

/-- The function `stop()`; `fuel` bounds the iterations of each of its two
waiting loops. -/
def stop (fuel : Nat) (d : AVDemuxThread) : Option AVDemuxThread :=
  match (match d.audio_thread with
         | some t => (stopThread fuel t).map some
         | none => some none) with
  | none => none
  | some a =>
    match (match d.video_thread with
           | some t => (stopThread fuel t).map some
           | none => some none) with
    | none => none
    | some v =>
      let d := { d with audio_thread := a, video_thread := v }
      let d := d.pause false
      some { d with end_ := true }

/-- The function `nextFrame()`.  The local `connected` makes the second
`connect` unreachable when the video pipeline is attached. -/
def nextFrame (d : AVDemuxThread) : AVDemuxThread :=
  let d := d.pause true
  let connected := false
  let (d, connected) :=
    match d.video_thread with
    | some t =>
      let t := t.pause false
      let t := t.onQueue (fun q => q.blockFull false)
      let t := if !connected then { t with conn_next_frame := t.conn_next_frame + 1 } else t
      ({ d with video_thread := some t }, true)
    | none => (d, connected)
  let d :=
    match d.audio_thread with
    | some t =>
      let t := t.pause false
      let t := t.onQueue (fun q => q.blockFull false)
      let t := if !connected then { t with conn_next_frame := t.conn_next_frame + 1 } else t
      { d with audio_thread := some t }
    | none => d
  let d := { d with clock_pause := d.clock_pause ++ [false] }
  let d := { d with nb_next_frame := d.nb_next_frame + 1 }
  d.pauseInternal false

/-- The slot `frameDeliveredSeekOnPause()`; `none` is the failed `Q_ASSERT(thread)`. -/
def frameDeliveredSeekOnPause (d : AVDemuxThread) : Option AVDemuxThread :=
  match d.videoOrAudio with
  | none => none
  | some _ =>
    let d := d.onVideoOrAudio (fun t => { t with conn_seek_on_pause := 0 })
    if d.user_paused then
      let d := d.pause true
      let d := { d with clock_pause := d.clock_pause ++ [true] }
      some (d.onVideoOrAudio (fun t => t.pause true))
    else some d

/-- The slot `frameDeliveredNextFrame()`; `none` is a failed assertion.
`nb_next_frame.deref()` decrements the counter and is true when the new value
is not zero. -/
def frameDeliveredNextFrame (d : AVDemuxThread) : Option AVDemuxThread :=
  match d.videoOrAudio with
  | none => none
  | some _ =>
    let d := { d with nb_next_frame := d.nb_next_frame - 1 }
    if d.nb_next_frame ≠ 0 then
      if d.nb_next_frame > 0 then some d else none
    else
      let d := d.onVideoOrAudio (fun t => { t with conn_next_frame := 0 })
      if d.user_paused then
        let d := d.pause true
        let d := { d with clock_pause := d.clock_pause ++ [true] }
        let d := d.onVideo (fun t => t.pause true)
        some (d.onAudio (fun t => t.pause true))
      else some d

/-- The function `tryPause`: the returned flag (the timed wait changes no
modelled state). -/
def tryPause (d : AVDemuxThread) : Bool := d.paused

/-- The part of `run()` before the `while (!end)` loop. -/
def runStart (d : AVDemuxThread) : AVDemuxThread :=
  let d := { d with end_ := false }
  let d := d.onAudio (fun t => if !t.isRunning then t.start else t)
  let d := d.onVideo (fun t => if !t.isRunning then t.start else t)
  let d := { d with audio_stream := d.demuxer.audioStream, video_stream := d.demuxer.videoStream }
  let d := d.pause false
  let d := { d with
    aqueue := d.audio_thread.map AVThread.addr
    vqueue := d.video_thread.map AVThread.addr }
  let d := d.onAqueue (fun q => (BlockingQueue.clear q).setBlocking true)
  d.onVqueue (fun q => (BlockingQueue.clear q).setBlocking true)

/-- How an iteration of the read loop leaves the loop body. -/
inductive LoopExit where
  | next
  | brk
deriving DecidableEq, Repr

/-- The number `running_threads` computed in the read loop. -/
def runningThreads (d : AVDemuxThread) : Nat :=
  (if (d.audio_thread.map AVThread.isRunning).getD false then 1 else 0)
    + (if (d.video_thread.map AVThread.isRunning).getD false then 1 else 0)

/-- The argument of `aqueue->blockFull(...)` in the audio branch of the read loop. -/
def audioBlockFullArg (d : AVDemuxThread) : Bool :=
  !d.video_thread.isSome || !(d.video_thread.map AVThread.isRunning).getD false
    || !d.vqueue.isSome
    || ((d.vqueueOwner.map (fun t => t.packetQueue.isEnough)).getD false
        || d.demuxer.hasAttacedPicture)

/-- The argument of `vqueue->blockFull(...)` in the video branch of the read loop. -/
def videoBlockFullArg (d : AVDemuxThread) : Bool :=
  !d.audio_thread.isSome || !(d.audio_thread.map AVThread.isRunning).getD false
    || !d.aqueue.isSome
    || (d.aqueueOwner.map (fun t => t.packetQueue.isEnough)).getD false

/-- The block `if (aqueue) { ... }` of the audio branch of the read loop, `pkt`
being the packet read.  It tests the local `aqueue` and the member
`audio_thread` apart, as the source does; the iteration ends after it on
either path. -/
def audioBranch (d : AVDemuxThread) (pkt : Packet) : AVDemuxThread :=
  if d.aqueue.isSome then
    if !d.audio_thread.isSome || !(d.audio_thread.map AVThread.isRunning).getD false then
      d.onAqueue BlockingQueue.clear
    else
      let b := d.audioBlockFullArg
      let d := d.onAqueue (fun q => q.blockFull b)
      d.onAqueue (fun q => q.put pkt)
  else d

/-- The block `if (vqueue) { ... }` of the video branch of the read loop. -/
def videoBranch (d : AVDemuxThread) (pkt : Packet) : AVDemuxThread :=
  if d.vqueue.isSome then
    if !d.video_thread.isSome || !(d.video_thread.map AVThread.isRunning).getD false then
      d.onVqueue BlockingQueue.clear
    else
      let b := d.videoBlockFullArg
      let d := d.onVqueue (fun q => q.blockFull b)
      d.onVqueue (fun q => q.put pkt)
  else d

/-- The body of the loop `while (!end)` of `run()`: how it is left (`next`
for reaching its end or a `continue`, `brk` for a `break`) and the state. -/
def loopBody (d : AVDemuxThread) : LoopExit × AVDemuxThread :=
  let d := d.processNextSeekTask
  if d.tryPause then (.next, d)
  else if d.runningThreads = 0 then (.brk, d)
  else if d.end_ then (.brk, d)
  else
    let r := d.demuxer.readFrame
    let d := { d with demuxer := r.2 }
    if !r.1 then (.next, d)
    else
      let index := d.demuxer.stream
      let pkt := d.demuxer.packet
      if pkt.isEnd then
        let d := { d with end_ := true }
        let d := d.onAudio (fun t => t.setDemuxEnded true)
        let d := d.onVideo (fun t => t.setDemuxEnded true)
        (.brk, d)
      else if index = d.audio_stream then (.next, d.audioBranch pkt)
      else if index = d.video_stream then (.next, d.videoBranch pkt)
      else (.next, d)

/-- The loop `while (!end) { ... }` of `run()`; `none` when `fuel` iterations
do not leave it. -/
def runLoop : Nat → AVDemuxThread → Option AVDemuxThread
  | 0, d => if d.end_ then some d else none
  | fuel + 1, d =>
    if d.end_ then some d
    else
      match d.loopBody with
      | (.brk, d) => some d
      | (.next, d) => runLoop fuel d

/-- The loops `while (t && t->isRunning()) t->wait(500);` ending `run()`, for an
attached pipeline. -/
def waitThreadLoop : Nat → AVThread → Option AVThread
  | 0, t => if t.isRunning then none else some t
  | fuel + 1, t => if t.isRunning then waitThreadLoop fuel t.wait else some t

/-- The part of `run()` after the read loop: the flush packets and the two
waiting loops. -/
def runFinish (fuel : Nat) (d : AVDemuxThread) : Option AVDemuxThread :=
  let d := d.onAqueue (fun q => q.put Packet.default)
  let d := d.onVqueue (fun q => q.put Packet.default)
  match (match d.audio_thread with
         | some t => (waitThreadLoop fuel t).map some
         | none => some none) with
  | none => none
  | some a =>
    match (match d.video_thread with
           | some t => (waitThreadLoop fuel t).map some
           | none => some none) with
    | none => none
    | some v => some { d with audio_thread := a, video_thread := v }

/-- The function `run()`; `fuel` bounds the iterations of each of its loops. -/
def run (fuel : Nat) (d : AVDemuxThread) : Option AVDemuxThread :=
  match runLoop fuel d.runStart with
  | none => none
  | some d => runFinish fuel d

end AVDemuxThread

/-- The function `QueueEmptyCall::call()`, applied to the coordinator the
member `mDemuxThread` points to (`none`: a null pointer); the result is the
coordinator afterwards. -/
def QueueEmptyCall.call (mDemuxThread : Option AVDemuxThread) : Option AVDemuxThread :=
  match mDemuxThread with
  | none => none
  | some d =>
    if d.isEnd then some d
    else
      let d := d.onVideo (fun t => t.onQueue (fun q => q.blockFull false))
      some (d.onAudio (fun t => t.onQueue (fun q => q.blockFull false)))

/-- What can happen to a coordinator: calls of its public functions by the
player, the steps of its read loop, and the notifications it receives. -/
inductive Event where
  | setAudioThread (thread : Option AVThread)
  | setVideoThread (thread : Option AVThread)
  | pause (p : Bool)
  | nextFrame
  | seek (pos : Int)
  | processNextSeekTask
  | frameDeliveredSeekOnPause
  | frameDeliveredNextFrame
  | stop (fuel : Nat)
  | runStart
  | loopBody
  | runFinish (fuel : Nat)
  | run (fuel : Nat)
  | queueEmpty
deriving DecidableEq, Repr

/-- The effect of one event; `none` when an assertion fails or a waiting loop
does not finish within its fuel. -/
def Event.apply (d : AVDemuxThread) : Event → Option AVDemuxThread
  | .setAudioThread t => some (d.setAudioThread t)
  | .setVideoThread t => some (d.setVideoThread t)
  | .pause p => some (d.pause p)
  | .nextFrame => some d.nextFrame
  | .seek pos => some (d.seek pos)
  | .processNextSeekTask => some d.processNextSeekTask
  | .frameDeliveredSeekOnPause => d.frameDeliveredSeekOnPause
  | .frameDeliveredNextFrame => d.frameDeliveredNextFrame
  | .stop fuel => d.stop fuel
  | .runStart => some d.runStart
  | .loopBody => some d.loopBody.2
  | .runFinish fuel => d.runFinish fuel
  | .run fuel => d.run fuel
  | .queueEmpty => QueueEmptyCall.call (some d)

/-- Run a sequence of events from a state. -/
def execEvents : List Event → AVDemuxThread → Option AVDemuxThread
  | [], d => some d
  | e :: es, d =>
    match e.apply d with
    | none => none
    | some d => execEvents es d

/-- The pause invariant: the effective pause flag is set only when the
caller's intended pause flag is. -/
def AVDemuxThread.PauseInv (d : AVDemuxThread) : Prop := d.paused = true → d.user_paused = true

/-- The seek slot is well formed: capacity 1 and at most one stored task. -/
def AVDemuxThread.SlotInv (d : AVDemuxThread) : Prop :=
  d.seek_tasks.cap = 1 ∧ d.seek_tasks.queue.length ≤ 1

/-! ## Example data -/

/-- An empty packet queue of capacity 2 with low watermark 1. -/
def exQueue : PacketQueue :=
  { queue := [], cap := 2, thres := 1, blocking := true, block_full := true,
    empty_callback := false }

/-- A running, unpaused audio pipeline that needs two timed waits to wind down. -/
def exAudio : AVThread :=
  { addr := 1, packets := exQueue, demux_ended := false, paused := false, running := true,
    stop_requested := false, wait_ticks := 1, conn_seek_on_pause := 0, conn_next_frame := 0 }

/-- A running, unpaused video pipeline that needs three timed waits to wind down. -/
def exVideo : AVThread :=
  { addr := 2, packets := exQueue, demux_ended := false, paused := false, running := true,
    stop_requested := false, wait_ticks := 2, conn_seek_on_pause := 0, conn_next_frame := 0 }

/-- The payload packet number `n`. -/
def exPacket (n : Nat) : Packet := { data := n, is_end := false }

/-- Ten audio packets (stream 0) interleaved with ten video packets (stream 1). -/
def exSource : List (Int × Packet) :=
  [(0, exPacket 1), (1, exPacket 2), (0, exPacket 3), (1, exPacket 4), (0, exPacket 5),
   (1, exPacket 6), (0, exPacket 7), (1, exPacket 8), (0, exPacket 9), (1, exPacket 10),
   (0, exPacket 11), (1, exPacket 12), (0, exPacket 13), (1, exPacket 14), (0, exPacket 15),
   (1, exPacket 16), (0, exPacket 17), (1, exPacket 18), (0, exPacket 19), (1, exPacket 20)]

/-- A source reader over `exSource` followed by an end marker; audio is
stream 0, video is stream 1, no attached picture. -/
def exDemuxer : AVDemuxer :=
  { frames := exSource.map some ++ [some (0, { data := 0, is_end := true })]
    cur_stream := 0
    cur_packet := Packet.default
    audio_stream := 0
    video_stream := 1
    attached_picture := false
    seeks := [] }

/-- A freshly constructed coordinator with both example pipelines attached. -/
def exBoth : AVDemuxThread :=
  ((AVDemuxThread.new exDemuxer).setAudioThread (some exAudio)).setVideoThread (some exVideo)

/-- The coordinator `exBoth` inside its read loop: `run()` has executed the
part before the loop. -/
def exLooping : AVDemuxThread := exBoth.runStart

/-- The coordinator `exBoth` after the player requested a pause. -/
def exPaused : AVDemuxThread := exBoth.pause true

/-- A paused coordinator with only the audio pipeline attached. -/
def exPausedAudioOnly : AVDemuxThread :=
  ((AVDemuxThread.new exDemuxer).setAudioThread (some exAudio)).pause true

/-- The coordinator `exLooping` after both of its pipelines stopped running. -/
def exStoppedPipelines : AVDemuxThread :=
  (exLooping.onAudio (fun t => { t with running := false })).onVideo
    (fun t => { t with running := false })

/-- A coordinator whose video pipeline was attached after `run()` had begun:
only the audio pipeline was attached when `run()` took its locals. -/
def exLateVideo : AVDemuxThread :=
  (((AVDemuxThread.new exDemuxer).setAudioThread (some exAudio)).runStart).setVideoThread
    (some exVideo)

/-- A second audio pipeline, at another address. -/
def exAudio2 : AVThread := { exAudio with addr := 3 }

/-- The coordinator `exLooping` after its audio pipeline was replaced while
`run()` was in its loop: `aqueue` still points to the queue of the first one. -/
def exReplacedAudio : AVDemuxThread := exLooping.setAudioThread (some exAudio2)

/-! ## Basic facts about the embedding -/

namespace AVDemuxThread

@[simp] theorem onAudio_paused (d : AVDemuxThread) (f : AVThread → AVThread) :
    (d.onAudio f).paused = d.paused := by
  unfold onAudio; split <;> rfl

@[simp] theorem onAudio_user_paused (d : AVDemuxThread) (f : AVThread → AVThread) :
    (d.onAudio f).user_paused = d.user_paused := by
  unfold onAudio; split <;> rfl

@[simp] theorem onAudio_end (d : AVDemuxThread) (f : AVThread → AVThread) :
    (d.onAudio f).end_ = d.end_ := by
  unfold onAudio; split <;> rfl

@[simp] theorem onAudio_demuxer (d : AVDemuxThread) (f : AVThread → AVThread) :
    (d.onAudio f).demuxer = d.demuxer := by
  unfold onAudio; split <;> rfl

@[simp] theorem onAudio_seek_tasks (d : AVDemuxThread) (f : AVThread → AVThread) :
    (d.onAudio f).seek_tasks = d.seek_tasks := by
  unfold onAudio; split <;> rfl

@[simp] theorem onAudio_nb_next_frame (d : AVDemuxThread) (f : AVThread → AVThread) :
    (d.onAudio f).nb_next_frame = d.nb_next_frame := by
  unfold onAudio; split <;> rfl

@[simp] theorem onAudio_audio_stream (d : AVDemuxThread) (f : AVThread → AVThread) :
    (d.onAudio f).audio_stream = d.audio_stream := by
  unfold onAudio; split <;> rfl

@[simp] theorem onAudio_video_stream (d : AVDemuxThread) (f : AVThread → AVThread) :
    (d.onAudio f).video_stream = d.video_stream := by
  unfold onAudio; split <;> rfl

@[simp] theorem onAudio_video_thread (d : AVDemuxThread) (f : AVThread → AVThread) :
    (d.onAudio f).video_thread = d.video_thread := by
  unfold onAudio; split <;> rfl

@[simp] theorem onAudio_audio_thread (d : AVDemuxThread) (f : AVThread → AVThread) :
    (d.onAudio f).audio_thread = d.audio_thread.map f := by
  unfold onAudio; split <;> simp_all

@[simp] theorem onVideo_paused (d : AVDemuxThread) (f : AVThread → AVThread) :
    (d.onVideo f).paused = d.paused := by
  unfold onVideo; split <;> rfl

@[simp] theorem onVideo_user_paused (d : AVDemuxThread) (f : AVThread → AVThread) :
    (d.onVideo f).user_paused = d.user_paused := by
  unfold onVideo; split <;> rfl

@[simp] theorem onVideo_end (d : AVDemuxThread) (f : AVThread → AVThread) :
    (d.onVideo f).end_ = d.end_ := by
  unfold onVideo; split <;> rfl

@[simp] theorem onVideo_demuxer (d : AVDemuxThread) (f : AVThread → AVThread) :
    (d.onVideo f).demuxer = d.demuxer := by
  unfold onVideo; split <;> rfl

@[simp] theorem onVideo_seek_tasks (d : AVDemuxThread) (f : AVThread → AVThread) :
    (d.onVideo f).seek_tasks = d.seek_tasks := by
  unfold onVideo; split <;> rfl

@[simp] theorem onVideo_nb_next_frame (d : AVDemuxThread) (f : AVThread → AVThread) :
    (d.onVideo f).nb_next_frame = d.nb_next_frame := by
  unfold onVideo; split <;> rfl

@[simp] theorem onVideo_audio_stream (d : AVDemuxThread) (f : AVThread → AVThread) :
    (d.onVideo f).audio_stream = d.audio_stream := by
  unfold onVideo; split <;> rfl

@[simp] theorem onVideo_video_stream (d : AVDemuxThread) (f : AVThread → AVThread) :
    (d.onVideo f).video_stream = d.video_stream := by
  unfold onVideo; split <;> rfl

@[simp] theorem onVideo_audio_thread (d : AVDemuxThread) (f : AVThread → AVThread) :
    (d.onVideo f).audio_thread = d.audio_thread := by
  unfold onVideo; split <;> rfl

@[simp] theorem onVideo_video_thread (d : AVDemuxThread) (f : AVThread → AVThread) :
    (d.onVideo f).video_thread = d.video_thread.map f := by
  unfold onVideo; split <;> simp_all

@[simp] theorem onVideoOrAudio_paused (d : AVDemuxThread) (f : AVThread → AVThread) :
    (d.onVideoOrAudio f).paused = d.paused := by
  unfold onVideoOrAudio; split <;> simp

@[simp] theorem onVideoOrAudio_user_paused (d : AVDemuxThread) (f : AVThread → AVThread) :
    (d.onVideoOrAudio f).user_paused = d.user_paused := by
  unfold onVideoOrAudio; split <;> simp

@[simp] theorem onVideoOrAudio_end (d : AVDemuxThread) (f : AVThread → AVThread) :
    (d.onVideoOrAudio f).end_ = d.end_ := by
  unfold onVideoOrAudio; split <;> simp

@[simp] theorem onVideoOrAudio_demuxer (d : AVDemuxThread) (f : AVThread → AVThread) :
    (d.onVideoOrAudio f).demuxer = d.demuxer := by
  unfold onVideoOrAudio; split <;> simp

@[simp] theorem onVideoOrAudio_seek_tasks (d : AVDemuxThread) (f : AVThread → AVThread) :
    (d.onVideoOrAudio f).seek_tasks = d.seek_tasks := by
  unfold onVideoOrAudio; split <;> simp

@[simp] theorem onVideoOrAudio_nb_next_frame (d : AVDemuxThread) (f : AVThread → AVThread) :
    (d.onVideoOrAudio f).nb_next_frame = d.nb_next_frame := by
  unfold onVideoOrAudio; split <;> simp

@[simp] theorem onVideoOrAudio_video_thread (d : AVDemuxThread) (f : AVThread → AVThread) :
    (d.onVideoOrAudio f).video_thread = d.video_thread.map f := by
  unfold onVideoOrAudio; split <;> simp_all

@[simp] theorem onVideoOrAudio_audio_thread (d : AVDemuxThread) (f : AVThread → AVThread) :
    (d.onVideoOrAudio f).audio_thread
      = if d.video_thread.isSome then d.audio_thread else d.audio_thread.map f := by
  unfold onVideoOrAudio; split <;> simp_all

@[simp] theorem onAudio_aqueue (d : AVDemuxThread) (f : AVThread → AVThread) :
    (d.onAudio f).aqueue = d.aqueue := by
  unfold onAudio; split <;> rfl

@[simp] theorem onAudio_vqueue (d : AVDemuxThread) (f : AVThread → AVThread) :
    (d.onAudio f).vqueue = d.vqueue := by
  unfold onAudio; split <;> rfl

@[simp] theorem onAudio_detached_audio (d : AVDemuxThread) (f : AVThread → AVThread) :
    (d.onAudio f).detached_audio = d.detached_audio := by
  unfold onAudio; split <;> rfl

@[simp] theorem onAudio_detached_video (d : AVDemuxThread) (f : AVThread → AVThread) :
    (d.onAudio f).detached_video = d.detached_video := by
  unfold onAudio; split <;> rfl

@[simp] theorem onAudio_clock_pause (d : AVDemuxThread) (f : AVThread → AVThread) :
    (d.onAudio f).clock_pause = d.clock_pause := by
  unfold onAudio; split <;> rfl

@[simp] theorem onVideo_aqueue (d : AVDemuxThread) (f : AVThread → AVThread) :
    (d.onVideo f).aqueue = d.aqueue := by
  unfold onVideo; split <;> rfl

@[simp] theorem onVideo_vqueue (d : AVDemuxThread) (f : AVThread → AVThread) :
    (d.onVideo f).vqueue = d.vqueue := by
  unfold onVideo; split <;> rfl

@[simp] theorem onVideo_detached_audio (d : AVDemuxThread) (f : AVThread → AVThread) :
    (d.onVideo f).detached_audio = d.detached_audio := by
  unfold onVideo; split <;> rfl

@[simp] theorem onVideo_detached_video (d : AVDemuxThread) (f : AVThread → AVThread) :
    (d.onVideo f).detached_video = d.detached_video := by
  unfold onVideo; split <;> rfl

@[simp] theorem onVideo_clock_pause (d : AVDemuxThread) (f : AVThread → AVThread) :
    (d.onVideo f).clock_pause = d.clock_pause := by
  unfold onVideo; split <;> rfl

@[simp] theorem onVideoOrAudio_aqueue (d : AVDemuxThread) (f : AVThread → AVThread) :
    (d.onVideoOrAudio f).aqueue = d.aqueue := by
  unfold onVideoOrAudio; split <;> simp

@[simp] theorem onVideoOrAudio_vqueue (d : AVDemuxThread) (f : AVThread → AVThread) :
    (d.onVideoOrAudio f).vqueue = d.vqueue := by
  unfold onVideoOrAudio; split <;> simp

@[simp] theorem onVideoOrAudio_detached_audio (d : AVDemuxThread) (f : AVThread → AVThread) :
    (d.onVideoOrAudio f).detached_audio = d.detached_audio := by
  unfold onVideoOrAudio; split <;> simp

@[simp] theorem onVideoOrAudio_detached_video (d : AVDemuxThread) (f : AVThread → AVThread) :
    (d.onVideoOrAudio f).detached_video = d.detached_video := by
  unfold onVideoOrAudio; split <;> simp

@[simp] theorem onVideoOrAudio_clock_pause (d : AVDemuxThread) (f : AVThread → AVThread) :
    (d.onVideoOrAudio f).clock_pause = d.clock_pause := by
  unfold onVideoOrAudio; split <;> simp

@[simp] theorem onVideoOrAudio_audio_stream (d : AVDemuxThread) (f : AVThread → AVThread) :
    (d.onVideoOrAudio f).audio_stream = d.audio_stream := by
  unfold onVideoOrAudio; split <;> simp

@[simp] theorem onVideoOrAudio_video_stream (d : AVDemuxThread) (f : AVThread → AVThread) :
    (d.onVideoOrAudio f).video_stream = d.video_stream := by
  unfold onVideoOrAudio; split <;> simp

@[simp] theorem onAqueue_paused (d : AVDemuxThread) (f : PacketQueue → PacketQueue) :
    (d.onAqueue f).paused = d.paused := by
  unfold onAqueue; split
  · rfl
  · split <;> simp

@[simp] theorem onAqueue_user_paused (d : AVDemuxThread) (f : PacketQueue → PacketQueue) :
    (d.onAqueue f).user_paused = d.user_paused := by
  unfold onAqueue; split
  · rfl
  · split <;> simp

@[simp] theorem onAqueue_end (d : AVDemuxThread) (f : PacketQueue → PacketQueue) :
    (d.onAqueue f).end_ = d.end_ := by
  unfold onAqueue; split
  · rfl
  · split <;> simp

@[simp] theorem onAqueue_demuxer (d : AVDemuxThread) (f : PacketQueue → PacketQueue) :
    (d.onAqueue f).demuxer = d.demuxer := by
  unfold onAqueue; split
  · rfl
  · split <;> simp

@[simp] theorem onAqueue_seek_tasks (d : AVDemuxThread) (f : PacketQueue → PacketQueue) :
    (d.onAqueue f).seek_tasks = d.seek_tasks := by
  unfold onAqueue; split
  · rfl
  · split <;> simp

@[simp] theorem onAqueue_nb_next_frame (d : AVDemuxThread) (f : PacketQueue → PacketQueue) :
    (d.onAqueue f).nb_next_frame = d.nb_next_frame := by
  unfold onAqueue; split
  · rfl
  · split <;> simp

@[simp] theorem onAqueue_audio_stream (d : AVDemuxThread) (f : PacketQueue → PacketQueue) :
    (d.onAqueue f).audio_stream = d.audio_stream := by
  unfold onAqueue; split
  · rfl
  · split <;> simp

@[simp] theorem onAqueue_video_stream (d : AVDemuxThread) (f : PacketQueue → PacketQueue) :
    (d.onAqueue f).video_stream = d.video_stream := by
  unfold onAqueue; split
  · rfl
  · split <;> simp

@[simp] theorem onAqueue_aqueue (d : AVDemuxThread) (f : PacketQueue → PacketQueue) :
    (d.onAqueue f).aqueue = d.aqueue := by
  unfold onAqueue; split
  · rfl
  · split <;> simp

@[simp] theorem onAqueue_vqueue (d : AVDemuxThread) (f : PacketQueue → PacketQueue) :
    (d.onAqueue f).vqueue = d.vqueue := by
  unfold onAqueue; split
  · rfl
  · split <;> simp

@[simp] theorem onAqueue_clock_pause (d : AVDemuxThread) (f : PacketQueue → PacketQueue) :
    (d.onAqueue f).clock_pause = d.clock_pause := by
  unfold onAqueue; split
  · rfl
  · split <;> simp

@[simp] theorem onAqueue_video_thread (d : AVDemuxThread) (f : PacketQueue → PacketQueue) :
    (d.onAqueue f).video_thread = d.video_thread := by
  unfold onAqueue; split
  · rfl
  · split <;> simp

@[simp] theorem onAqueue_detached_video (d : AVDemuxThread) (f : PacketQueue → PacketQueue) :
    (d.onAqueue f).detached_video = d.detached_video := by
  unfold onAqueue; split
  · rfl
  · split <;> simp

@[simp] theorem onVqueue_paused (d : AVDemuxThread) (f : PacketQueue → PacketQueue) :
    (d.onVqueue f).paused = d.paused := by
  unfold onVqueue; split
  · rfl
  · split <;> simp

@[simp] theorem onVqueue_user_paused (d : AVDemuxThread) (f : PacketQueue → PacketQueue) :
    (d.onVqueue f).user_paused = d.user_paused := by
  unfold onVqueue; split
  · rfl
  · split <;> simp

@[simp] theorem onVqueue_end (d : AVDemuxThread) (f : PacketQueue → PacketQueue) :
    (d.onVqueue f).end_ = d.end_ := by
  unfold onVqueue; split
  · rfl
  · split <;> simp

@[simp] theorem onVqueue_demuxer (d : AVDemuxThread) (f : PacketQueue → PacketQueue) :
    (d.onVqueue f).demuxer = d.demuxer := by
  unfold onVqueue; split
  · rfl
  · split <;> simp

@[simp] theorem onVqueue_seek_tasks (d : AVDemuxThread) (f : PacketQueue → PacketQueue) :
    (d.onVqueue f).seek_tasks = d.seek_tasks := by
  unfold onVqueue; split
  · rfl
  · split <;> simp

@[simp] theorem onVqueue_nb_next_frame (d : AVDemuxThread) (f : PacketQueue → PacketQueue) :
    (d.onVqueue f).nb_next_frame = d.nb_next_frame := by
  unfold onVqueue; split
  · rfl
  · split <;> simp

@[simp] theorem onVqueue_audio_stream (d : AVDemuxThread) (f : PacketQueue → PacketQueue) :
    (d.onVqueue f).audio_stream = d.audio_stream := by
  unfold onVqueue; split
  · rfl
  · split <;> simp

@[simp] theorem onVqueue_video_stream (d : AVDemuxThread) (f : PacketQueue → PacketQueue) :
    (d.onVqueue f).video_stream = d.video_stream := by
  unfold onVqueue; split
  · rfl
  · split <;> simp

@[simp] theorem onVqueue_aqueue (d : AVDemuxThread) (f : PacketQueue → PacketQueue) :
    (d.onVqueue f).aqueue = d.aqueue := by
  unfold onVqueue; split
  · rfl
  · split <;> simp

@[simp] theorem onVqueue_vqueue (d : AVDemuxThread) (f : PacketQueue → PacketQueue) :
    (d.onVqueue f).vqueue = d.vqueue := by
  unfold onVqueue; split
  · rfl
  · split <;> simp

@[simp] theorem onVqueue_clock_pause (d : AVDemuxThread) (f : PacketQueue → PacketQueue) :
    (d.onVqueue f).clock_pause = d.clock_pause := by
  unfold onVqueue; split
  · rfl
  · split <;> simp

@[simp] theorem onVqueue_audio_thread (d : AVDemuxThread) (f : PacketQueue → PacketQueue) :
    (d.onVqueue f).audio_thread = d.audio_thread := by
  unfold onVqueue; split
  · rfl
  · split <;> simp

@[simp] theorem onVqueue_detached_audio (d : AVDemuxThread) (f : PacketQueue → PacketQueue) :
    (d.onVqueue f).detached_audio = d.detached_audio := by
  unfold onVqueue; split
  · rfl
  · split <;> simp

theorem findAt_updateAt (p : Nat) (f : AVThread → AVThread) (hf : ∀ t, (f t).addr = t.addr)
    (l : List AVThread) : findAt p (updateAt p f l) = (findAt p l).map f := by
  induction l with
  | nil => rfl
  | cons o os ih =>
    unfold updateAt
    by_cases h : o.addr = p
    · simp [findAt, h, hf]
    · have h2 : ¬ (f o).addr = p := by rw [hf]; exact h
      simp only [h, if_false]
      unfold findAt at ih ⊢
      simp [List.find?_cons, h, ih]

theorem onAqueue_aqueueOwner (d : AVDemuxThread) (f : PacketQueue → PacketQueue) :
    (d.onAqueue f).aqueueOwner = d.aqueueOwner.map (fun t => t.onQueue f) := by
  cases hq : d.aqueue with
  | none => simp [aqueueOwner, onAqueue, hq]
  | some p =>
    by_cases h : d.audio_thread.map AVThread.addr = some p
    · cases ha : d.audio_thread with
      | none => simp [ha] at h
      | some t =>
        have ht : t.addr = p := by simpa [ha] using h
        simp [aqueueOwner, onAqueue, onAudio, hq, ha, ht, AVThread.onQueue]
    · have := findAt_updateAt p (fun t => t.onQueue f) (fun _ => rfl) d.detached_audio
      simp [aqueueOwner, onAqueue, hq, h, this]

theorem onVqueue_vqueueOwner (d : AVDemuxThread) (f : PacketQueue → PacketQueue) :
    (d.onVqueue f).vqueueOwner = d.vqueueOwner.map (fun t => t.onQueue f) := by
  cases hq : d.vqueue with
  | none => simp [vqueueOwner, onVqueue, hq]
  | some p =>
    by_cases h : d.video_thread.map AVThread.addr = some p
    · cases ha : d.video_thread with
      | none => simp [ha] at h
      | some t =>
        have ht : t.addr = p := by simpa [ha] using h
        simp [vqueueOwner, onVqueue, onVideo, hq, ha, ht, AVThread.onQueue]
    · have := findAt_updateAt p (fun t => t.onQueue f) (fun _ => rfl) d.detached_video
      simp [vqueueOwner, onVqueue, hq, h, this]

theorem onAqueue_vqueueOwner (d : AVDemuxThread) (f : PacketQueue → PacketQueue) :
    (d.onAqueue f).vqueueOwner = d.vqueueOwner := by
  unfold vqueueOwner; simp

theorem onVqueue_aqueueOwner (d : AVDemuxThread) (f : PacketQueue → PacketQueue) :
    (d.onVqueue f).aqueueOwner = d.aqueueOwner := by
  unfold aqueueOwner; simp

/-- On the audio member `aqueue->f()` only touches the queue. -/
theorem onAqueue_audio_thread (d : AVDemuxThread) (f : PacketQueue → PacketQueue) :
    (d.onAqueue f).audio_thread
      = if d.aqueue.isSome = true ∧ d.aqueue = d.audio_thread.map AVThread.addr
        then d.audio_thread.map (fun t => t.onQueue f) else d.audio_thread := by
  unfold onAqueue
  cases hq : d.aqueue with
  | none => simp
  | some p =>
    simp only
    by_cases h : d.audio_thread.map AVThread.addr = some p
    · simp [h]
    · have h2 : ¬ some p = d.audio_thread.map AVThread.addr := fun e => h e.symm
      simp [h, h2]

/-- On the video member `vqueue->f()` only touches the queue. -/
theorem onVqueue_video_thread (d : AVDemuxThread) (f : PacketQueue → PacketQueue) :
    (d.onVqueue f).video_thread
      = if d.vqueue.isSome = true ∧ d.vqueue = d.video_thread.map AVThread.addr
        then d.video_thread.map (fun t => t.onQueue f) else d.video_thread := by
  unfold onVqueue
  cases hq : d.vqueue with
  | none => simp
  | some p =>
    simp only
    by_cases h : d.video_thread.map AVThread.addr = some p
    · simp [h]
    · have h2 : ¬ some p = d.video_thread.map AVThread.addr := fun e => h e.symm
      simp [h, h2]

theorem onAqueue_audio_running (d : AVDemuxThread) (f : PacketQueue → PacketQueue) :
    (d.onAqueue f).audio_thread.map AVThread.isRunning = d.audio_thread.map AVThread.isRunning
    ∧ (d.onAqueue f).audio_thread.map AVThread.addr = d.audio_thread.map AVThread.addr
    ∧ (d.onAqueue f).audio_thread.isSome = d.audio_thread.isSome := by
  rw [onAqueue_audio_thread]
  split
  · refine ⟨?_, ?_, ?_⟩ <;> cases d.audio_thread <;> rfl
  · exact ⟨rfl, rfl, rfl⟩

theorem onVqueue_video_running (d : AVDemuxThread) (f : PacketQueue → PacketQueue) :
    (d.onVqueue f).video_thread.map AVThread.isRunning = d.video_thread.map AVThread.isRunning
    ∧ (d.onVqueue f).video_thread.map AVThread.addr = d.video_thread.map AVThread.addr
    ∧ (d.onVqueue f).video_thread.isSome = d.video_thread.isSome := by
  rw [onVqueue_video_thread]
  split
  · refine ⟨?_, ?_, ?_⟩ <;> cases d.video_thread <;> rfl
  · exact ⟨rfl, rfl, rfl⟩

@[simp] theorem audioBranch_paused (d : AVDemuxThread) (pkt : Packet) :
    (d.audioBranch pkt).paused = d.paused := by
  unfold audioBranch; simp only []; split_ifs <;> simp

@[simp] theorem audioBranch_user_paused (d : AVDemuxThread) (pkt : Packet) :
    (d.audioBranch pkt).user_paused = d.user_paused := by
  unfold audioBranch; simp only []; split_ifs <;> simp

@[simp] theorem audioBranch_end (d : AVDemuxThread) (pkt : Packet) :
    (d.audioBranch pkt).end_ = d.end_ := by
  unfold audioBranch; simp only []; split_ifs <;> simp

@[simp] theorem audioBranch_demuxer (d : AVDemuxThread) (pkt : Packet) :
    (d.audioBranch pkt).demuxer = d.demuxer := by
  unfold audioBranch; simp only []; split_ifs <;> simp

@[simp] theorem audioBranch_seek_tasks (d : AVDemuxThread) (pkt : Packet) :
    (d.audioBranch pkt).seek_tasks = d.seek_tasks := by
  unfold audioBranch; simp only []; split_ifs <;> simp

@[simp] theorem audioBranch_nb_next_frame (d : AVDemuxThread) (pkt : Packet) :
    (d.audioBranch pkt).nb_next_frame = d.nb_next_frame := by
  unfold audioBranch; simp only []; split_ifs <;> simp

@[simp] theorem audioBranch_audio_stream (d : AVDemuxThread) (pkt : Packet) :
    (d.audioBranch pkt).audio_stream = d.audio_stream := by
  unfold audioBranch; simp only []; split_ifs <;> simp

@[simp] theorem audioBranch_video_stream (d : AVDemuxThread) (pkt : Packet) :
    (d.audioBranch pkt).video_stream = d.video_stream := by
  unfold audioBranch; simp only []; split_ifs <;> simp

@[simp] theorem audioBranch_aqueue (d : AVDemuxThread) (pkt : Packet) :
    (d.audioBranch pkt).aqueue = d.aqueue := by
  unfold audioBranch; simp only []; split_ifs <;> simp

@[simp] theorem audioBranch_vqueue (d : AVDemuxThread) (pkt : Packet) :
    (d.audioBranch pkt).vqueue = d.vqueue := by
  unfold audioBranch; simp only []; split_ifs <;> simp

@[simp] theorem audioBranch_clock_pause (d : AVDemuxThread) (pkt : Packet) :
    (d.audioBranch pkt).clock_pause = d.clock_pause := by
  unfold audioBranch; simp only []; split_ifs <;> simp

@[simp] theorem videoBranch_paused (d : AVDemuxThread) (pkt : Packet) :
    (d.videoBranch pkt).paused = d.paused := by
  unfold videoBranch; simp only []; split_ifs <;> simp

@[simp] theorem videoBranch_user_paused (d : AVDemuxThread) (pkt : Packet) :
    (d.videoBranch pkt).user_paused = d.user_paused := by
  unfold videoBranch; simp only []; split_ifs <;> simp

@[simp] theorem videoBranch_end (d : AVDemuxThread) (pkt : Packet) :
    (d.videoBranch pkt).end_ = d.end_ := by
  unfold videoBranch; simp only []; split_ifs <;> simp

@[simp] theorem videoBranch_demuxer (d : AVDemuxThread) (pkt : Packet) :
    (d.videoBranch pkt).demuxer = d.demuxer := by
  unfold videoBranch; simp only []; split_ifs <;> simp

@[simp] theorem videoBranch_seek_tasks (d : AVDemuxThread) (pkt : Packet) :
    (d.videoBranch pkt).seek_tasks = d.seek_tasks := by
  unfold videoBranch; simp only []; split_ifs <;> simp

@[simp] theorem videoBranch_nb_next_frame (d : AVDemuxThread) (pkt : Packet) :
    (d.videoBranch pkt).nb_next_frame = d.nb_next_frame := by
  unfold videoBranch; simp only []; split_ifs <;> simp

@[simp] theorem videoBranch_audio_stream (d : AVDemuxThread) (pkt : Packet) :
    (d.videoBranch pkt).audio_stream = d.audio_stream := by
  unfold videoBranch; simp only []; split_ifs <;> simp

@[simp] theorem videoBranch_video_stream (d : AVDemuxThread) (pkt : Packet) :
    (d.videoBranch pkt).video_stream = d.video_stream := by
  unfold videoBranch; simp only []; split_ifs <;> simp

@[simp] theorem videoBranch_aqueue (d : AVDemuxThread) (pkt : Packet) :
    (d.videoBranch pkt).aqueue = d.aqueue := by
  unfold videoBranch; simp only []; split_ifs <;> simp

@[simp] theorem videoBranch_vqueue (d : AVDemuxThread) (pkt : Packet) :
    (d.videoBranch pkt).vqueue = d.vqueue := by
  unfold videoBranch; simp only []; split_ifs <;> simp

@[simp] theorem videoBranch_clock_pause (d : AVDemuxThread) (pkt : Packet) :
    (d.videoBranch pkt).clock_pause = d.clock_pause := by
  unfold videoBranch; simp only []; split_ifs <;> simp

theorem pause_paused (d : AVDemuxThread) (p : Bool) : (d.pause p).paused = p := by
  unfold pause; split <;> simp_all

theorem pause_inv (d : AVDemuxThread) (p : Bool) (h : PauseInv d) : PauseInv (d.pause p) := by
  unfold pause PauseInv at *; split <;> simp_all

theorem seekInternal_user_paused (d : AVDemuxThread) (pos : Int) :
    (d.seekInternal pos).user_paused = d.user_paused := by
  unfold seekInternal pauseInternal; simp only []; split <;> simp

theorem seekInternal_paused (d : AVDemuxThread) (pos : Int) :
    (d.seekInternal pos).paused
      = (d.paused && !(d.video_thread.isSome || d.audio_thread.isSome)) := by
  unfold seekInternal pauseInternal isPaused; simp only []
  cases hp : d.paused <;> cases hv : d.video_thread <;> cases ha : d.audio_thread <;>
    simp [hp, hv, ha]

theorem seekInternal_inv (d : AVDemuxThread) (pos : Int) (h : PauseInv d) :
    PauseInv (d.seekInternal pos) := by
  unfold PauseInv at *
  rw [seekInternal_paused, seekInternal_user_paused]
  intro hp
  simp at hp
  exact h hp.1

theorem processNextSeekTask_inv (d : AVDemuxThread) (h : PauseInv d) :
    PauseInv d.processNextSeekTask := by
  unfold processNextSeekTask
  split
  · exact h
  · split
    · exact h
    · exact seekInternal_inv _ _ h

theorem newSeekRequest_paused (d : AVDemuxThread) (r : Int) :
    (d.newSeekRequest r).paused = d.paused := rfl

theorem newSeekRequest_user_paused (d : AVDemuxThread) (r : Int) :
    (d.newSeekRequest r).user_paused = d.user_paused := rfl

theorem seek_inv (d : AVDemuxThread) (pos : Int) (h : PauseInv d) : PauseInv (d.seek pos) := by
  unfold PauseInv at *
  unfold seek
  simpa [newSeekRequest_paused, newSeekRequest_user_paused] using h

theorem nextFrame_paused (d : AVDemuxThread) : d.nextFrame.paused = false := by
  unfold nextFrame pauseInternal; rfl

theorem nextFrame_inv (d : AVDemuxThread) : PauseInv d.nextFrame := by
  intro h; rw [nextFrame_paused] at h; cases h

theorem frameDeliveredSeekOnPause_inv (d d' : AVDemuxThread) (h : PauseInv d)
    (hd : d.frameDeliveredSeekOnPause = some d') : PauseInv d' := by
  unfold frameDeliveredSeekOnPause at hd
  split at hd
  · cases hd
  · simp only [onVideoOrAudio_user_paused] at hd
    split at hd
    · cases hd
      have := pause_inv (d.onVideoOrAudio fun t => { t with conn_seek_on_pause := 0 }) true
        (by unfold PauseInv at *; simpa using h)
      unfold PauseInv at *; simpa using this
    · cases hd
      unfold PauseInv at *; simpa using h

theorem frameDeliveredNextFrame_inv (d d' : AVDemuxThread) (h : PauseInv d)
    (hd : d.frameDeliveredNextFrame = some d') : PauseInv d' := by
  unfold frameDeliveredNextFrame at hd
  split at hd
  · cases hd
  · simp only [onVideoOrAudio_user_paused] at hd
    split at hd
    · split at hd
      · cases hd; exact h
      · cases hd
    · split at hd
      · cases hd
        have := pause_inv
          (({ d with nb_next_frame := d.nb_next_frame - 1 } : AVDemuxThread).onVideoOrAudio
            fun t => { t with conn_next_frame := 0 }) true
          (by unfold PauseInv at *; simpa using h)
        unfold PauseInv at *; simpa using this
      · cases hd
        unfold PauseInv at *; simpa using h

theorem stop_paused (fuel : Nat) (d d' : AVDemuxThread) (hd : d.stop fuel = some d') :
    d'.paused = false ∧ d'.end_ = true ∧ (d'.user_paused = true → d.user_paused = true) := by
  unfold stop at hd
  split at hd
  · cases hd
  · split at hd
    · cases hd
    · cases hd
      refine ⟨?_, rfl, ?_⟩
      · exact pause_paused _ _
      · unfold pause; simp only []; split <;> simp

theorem stop_inv (fuel : Nat) (d d' : AVDemuxThread) (hd : d.stop fuel = some d') :
    PauseInv d' := by
  intro h; rw [(stop_paused fuel d d' hd).1] at h; cases h

theorem runStart_paused (d : AVDemuxThread) : d.runStart.paused = false := by
  unfold runStart; simp [pause_paused]

theorem loopBody_paused (d : AVDemuxThread) :
    d.loopBody.2.paused = d.processNextSeekTask.paused := by
  unfold loopBody; simp only []
  split_ifs <;> simp

theorem loopBody_user_paused (d : AVDemuxThread) :
    d.loopBody.2.user_paused = d.processNextSeekTask.user_paused := by
  unfold loopBody; simp only []
  split_ifs <;> simp

theorem loopBody_inv (d : AVDemuxThread) (h : PauseInv d) : PauseInv d.loopBody.2 := by
  have := processNextSeekTask_inv d h
  unfold PauseInv at *
  rw [loopBody_paused, loopBody_user_paused]; exact this

theorem runLoop_inv (fuel : Nat) (d d' : AVDemuxThread) (h : PauseInv d)
    (hd : runLoop fuel d = some d') : PauseInv d' := by
  induction fuel generalizing d with
  | zero =>
    unfold runLoop at hd
    split at hd
    · cases hd; exact h
    · cases hd
  | succ n ih =>
    unfold runLoop at hd
    split at hd
    · cases hd; exact h
    · have hb := loopBody_inv d h
      split at hd
      · rename_i heq
        cases hd
        rw [heq] at hb; exact hb
      · rename_i heq
        rw [heq] at hb
        exact ih _ hb hd

theorem runFinish_paused (fuel : Nat) (d d' : AVDemuxThread) (hd : d.runFinish fuel = some d') :
    d'.paused = d.paused ∧ d'.user_paused = d.user_paused ∧ d'.end_ = d.end_ := by
  unfold runFinish at hd
  simp only [] at hd
  split at hd
  · cases hd
  · split at hd
    · cases hd
    · cases hd
      simp

theorem runFinish_inv (fuel : Nat) (d d' : AVDemuxThread) (h : PauseInv d)
    (hd : d.runFinish fuel = some d') : PauseInv d' := by
  obtain ⟨h1, h2, _⟩ := runFinish_paused fuel d d' hd
  unfold PauseInv at *
  rw [h1, h2]; exact h

theorem runStart_inv (d : AVDemuxThread) : PauseInv d.runStart := by
  intro h; rw [runStart_paused] at h; cases h

theorem run_inv (fuel : Nat) (d d' : AVDemuxThread) (hd : d.run fuel = some d') :
    PauseInv d' := by
  unfold run at hd
  split at hd
  · cases hd
  · rename_i d1 h1
    exact runFinish_inv fuel d1 d' (runLoop_inv fuel _ d1 (runStart_inv d) h1) hd

end AVDemuxThread

theorem QueueEmptyCall.call_inv (d d' : AVDemuxThread) (h : d.PauseInv)
    (hd : QueueEmptyCall.call (some d) = some d') : d'.PauseInv := by
  unfold QueueEmptyCall.call at hd
  simp only [] at hd
  split at hd
  · cases hd; exact h
  · cases hd
    unfold AVDemuxThread.PauseInv at *; simpa using h

theorem Event.apply_inv (e : Event) (d d' : AVDemuxThread) (h : d.PauseInv)
    (hd : e.apply d = some d') : d'.PauseInv := by
  cases e <;> simp only [Event.apply] at hd
  case setAudioThread t => cases hd; exact h
  case setVideoThread t => cases hd; exact h
  case pause p => cases hd; exact AVDemuxThread.pause_inv d p h
  case nextFrame => cases hd; exact AVDemuxThread.nextFrame_inv d
  case seek pos => cases hd; exact AVDemuxThread.seek_inv d pos h
  case processNextSeekTask => cases hd; exact AVDemuxThread.processNextSeekTask_inv d h
  case frameDeliveredSeekOnPause => exact AVDemuxThread.frameDeliveredSeekOnPause_inv d d' h hd
  case frameDeliveredNextFrame => exact AVDemuxThread.frameDeliveredNextFrame_inv d d' h hd
  case stop fuel => exact AVDemuxThread.stop_inv fuel d d' hd
  case runStart => cases hd; exact AVDemuxThread.runStart_inv d
  case loopBody => cases hd; exact AVDemuxThread.loopBody_inv d h
  case runFinish fuel => exact AVDemuxThread.runFinish_inv fuel d d' h hd
  case run fuel => exact AVDemuxThread.run_inv fuel d d' hd
  case queueEmpty => exact QueueEmptyCall.call_inv d d' h hd

theorem execEvents_inv (es : List Event) (d d' : AVDemuxThread) (h : d.PauseInv)
    (hd : execEvents es d = some d') : d'.PauseInv := by
  induction es generalizing d with
  | nil => unfold execEvents at hd; cases hd; exact h
  | cons e es ih =>
    unfold execEvents at hd
    split at hd
    · cases hd
    · rename_i d1 h1
      exact ih d1 (Event.apply_inv e d d1 h h1) hd

/-! ## The claims -/

/-- C10: in every state reachable from the freshly constructed coordinator by
any sequence of events (pause requests, single steps, seek requests and seek
task executions, frame-delivered notifications of both kinds, `stop()`, the
parts of `run()`, pipeline attachment, the queue-empty callback), `paused`
true implies `user_paused` true. -/
theorem C10_paused_implies_user_paused (dmx : AVDemuxer) (es : List Event) (d : AVDemuxThread)
    (hreach : execEvents es (AVDemuxThread.new dmx) = some d) (hp : d.paused = true) :
    d.user_paused = true :=
  execEvents_inv es (AVDemuxThread.new dmx) d (by intro h; cases h) hreach hp

/-- Witness of C10: attach a video pipeline, pause, step, pause again. -/
theorem C10_witness :
    execEvents [.setVideoThread (some exVideo), .pause true, .nextFrame, .pause true]
        (AVDemuxThread.new exDemuxer)
      = some ((((AVDemuxThread.new exDemuxer).setVideoThread (some exVideo)).pause
          true).nextFrame.pause true)
    ∧ ((((AVDemuxThread.new exDemuxer).setVideoThread (some exVideo)).pause
          true).nextFrame.pause true).paused = true
    ∧ ((((AVDemuxThread.new exDemuxer).setVideoThread (some exVideo)).pause
          true).nextFrame.pause true).user_paused = true :=
  ⟨by decide, by decide,
    C10_paused_implies_user_paused exDemuxer
      [.setVideoThread (some exVideo), .pause true, .nextFrame, .pause true]
      _ (by decide) (by decide)⟩

/-- C2 as stated fails: on a coordinator that is not ending, with both queues
attached and their block-when-full flags set, the queue-empty callback leaves
both flags false, not true. -/
theorem C2_counterexample :
    exLooping.isEnd = false
    ∧ exLooping.audio_thread.map (fun t => t.packets.block_full) = some true
    ∧ exLooping.video_thread.map (fun t => t.packets.block_full) = some true
    ∧ (QueueEmptyCall.call (some exLooping)).map
        (fun d => d.audio_thread.map (fun t => t.packets.block_full)) = some (some false)
    ∧ (QueueEmptyCall.call (some exLooping)).map
        (fun d => d.video_thread.map (fun t => t.packets.block_full)) = some (some false) := by
  decide

/-- C2 amended: on a coordinator that is not ending the queue-empty callback
leaves block-when-full false (not true) on every attached queue, whatever the
flags were before, and changes nothing else; when `isEnd()` is true the
callback changes nothing at all. -/
theorem C2_empty_callback (d : AVDemuxThread) :
    (d.isEnd = false →
      ∃ d', QueueEmptyCall.call (some d) = some d'
        ∧ d'.audio_thread
            = d.audio_thread.map (fun t => { t with packets := { t.packets with block_full := false } })
        ∧ d'.video_thread
            = d.video_thread.map (fun t => { t with packets := { t.packets with block_full := false } })
        ∧ (∀ t, d'.audio_thread = some t → t.packets.block_full = false)
        ∧ (∀ t, d'.video_thread = some t → t.packets.block_full = false)
        ∧ d' = { d with audio_thread := d'.audio_thread, video_thread := d'.video_thread })
    ∧ (d.isEnd = true → QueueEmptyCall.call (some d) = some d) := by
  constructor
  · intro h
    refine ⟨(d.onVideo fun t => t.onQueue fun q => q.blockFull false).onAudio
        fun t => t.onQueue fun q => q.blockFull false,
      by simp [QueueEmptyCall.call, h], ?_, ?_, ?_, ?_, ?_⟩
    · simp [AVThread.onQueue, BlockingQueue.blockFull]
    · simp [AVThread.onQueue, BlockingQueue.blockFull]
    · intro t ht
      simp [AVThread.onQueue, BlockingQueue.blockFull] at ht
      obtain ⟨a, _, rfl⟩ := ht
      rfl
    · intro t ht
      simp [AVThread.onQueue, BlockingQueue.blockFull] at ht
      obtain ⟨a, _, rfl⟩ := ht
      rfl
    · cases d with
      | mk p u e dm a v as vs nb st cp aq vq da dv =>
        cases a <;> cases v <;> rfl
  · intro h
    simp [QueueEmptyCall.call, h]

/-- Witness of C2: the callback on a coordinator inside its read loop, and on
the same coordinator after it has entered the ending state. -/
theorem C2_witness :
    exLooping.isEnd = false
    ∧ (∀ t, (QueueEmptyCall.call (some exLooping)).bind (fun d => d.audio_thread) = some t →
        t.packets.block_full = false)
    ∧ ({ exLooping with end_ := true } : AVDemuxThread).isEnd = true
    ∧ QueueEmptyCall.call (some { exLooping with end_ := true })
        = some { exLooping with end_ := true } := by
  refine ⟨by decide, ?_, by decide, (C2_empty_callback _).2 (by decide)⟩
  obtain ⟨d', h1, _, _, h4, _⟩ := (C2_empty_callback exLooping).1 (by decide)
  intro t ht
  rw [h1] at ht
  exact h4 t ht

theorem AVDemuxThread.seekInternal_end (d : AVDemuxThread) (pos : Int) :
    (d.seekInternal pos).end_ = d.end_ := by
  unfold AVDemuxThread.seekInternal AVDemuxThread.pauseInternal; simp only []; split <;> simp

theorem AVDemuxThread.processNextSeekTask_end (d : AVDemuxThread) :
    d.processNextSeekTask.end_ = d.end_ := by
  unfold AVDemuxThread.processNextSeekTask
  split
  · rfl
  · split
    · rfl
    · rw [AVDemuxThread.seekInternal_end]

theorem AVDemuxThread.audioBranch_running (s : AVDemuxThread) (pkt : Packet) (a : AVThread)
    (hq : s.aqueue.isSome = true) (ha : s.audio_thread = some a) (hrun : a.isRunning = true) :
    s.audioBranch pkt
      = (s.onAqueue (fun q => q.blockFull s.audioBlockFullArg)).onAqueue (fun q => q.put pkt) := by
  unfold AVDemuxThread.audioBranch
  simp [hq, ha, hrun]

theorem AVDemuxThread.videoBranch_running (s : AVDemuxThread) (pkt : Packet) (v : AVThread)
    (hq : s.vqueue.isSome = true) (hv : s.video_thread = some v) (hrun : v.isRunning = true) :
    s.videoBranch pkt
      = (s.onVqueue (fun q => q.blockFull s.videoBlockFullArg)).onVqueue (fun q => q.put pkt) := by
  unfold AVDemuxThread.videoBranch
  simp [hq, hv, hrun]

/-- An iteration of the read loop that reads a non-end packet of the audio
stream runs the audio block on the state after the seek-task step and the
read. -/
theorem AVDemuxThread.loopBody_audio (d : AVDemuxThread) (a : AVThread) (i : Int) (pkt : Packet)
    (rest : List (Option (Int × Packet)))
    (hend : d.end_ = false)
    (hpause : d.processNextSeekTask.tryPause = false)
    (ha : d.processNextSeekTask.audio_thread = some a) (hrun : a.isRunning = true)
    (hframes : d.processNextSeekTask.demuxer.frames = some (i, pkt) :: rest)
    (hi : i = d.processNextSeekTask.audio_stream) (hpkt : pkt.isEnd = false) :
    d.loopBody =
      (.next,
        AVDemuxThread.audioBranch
          { d.processNextSeekTask with
            demuxer := { d.processNextSeekTask.demuxer with
                          frames := rest, cur_stream := i, cur_packet := pkt } } pkt) := by
  have hend1 : d.processNextSeekTask.end_ = false := by
    rw [AVDemuxThread.processNextSeekTask_end]; exact hend
  unfold AVDemuxThread.loopBody
  generalize d.processNextSeekTask = d1 at *
  have hrt : d1.runningThreads ≠ 0 := by
    unfold AVDemuxThread.runningThreads; simp [ha, hrun]
  have hread : d1.demuxer.readFrame
      = (true, { d1.demuxer with frames := rest, cur_stream := i, cur_packet := pkt }) := by
    unfold AVDemuxer.readFrame; rw [hframes]
  simp only [hpause, hrt, hend1, hread, AVDemuxer.stream, AVDemuxer.packet, hpkt, ← hi,
    if_true, if_false, Bool.not_true, Bool.false_eq_true, Bool.not_false, ite_true,
    ite_false]

/-- C1 as stated fails: in a read-loop iteration that reads a non-end audio
packet with the audio pipeline running, where the video pipeline is attached
and running, the video queue is not `isEnough()` and there is no attached
picture (none of the four conditions holds), the flag set on the audio queue
is false, not true. -/
theorem C1_counterexample :
    exLooping.end_ = false
    ∧ exLooping.processNextSeekTask.tryPause = false
    ∧ exLooping.processNextSeekTask.audio_thread.map AVThread.isRunning = some true
    ∧ exLooping.processNextSeekTask.demuxer.frames.head?
        = some (some (exLooping.processNextSeekTask.audio_stream, exPacket 1))
    ∧ (exPacket 1).isEnd = false
    ∧ exLooping.processNextSeekTask.video_thread.map AVThread.isRunning = some true
    ∧ exLooping.processNextSeekTask.video_thread.map (fun t => t.packets.isEnough) = some false
    ∧ exLooping.processNextSeekTask.demuxer.hasAttacedPicture = false
    ∧ exLooping.loopBody.2.audio_thread.map (fun t => t.packets.block_full) = some false
    ∧ exLooping.loopBody.2.audio_thread.map (fun t => t.packets.queue) = some [exPacket 1] := by
  decide

/-- The audio block with the audio pipeline running: the queue `aqueue` points
to gets the flag `audioBlockFullArg` and then the packet. -/
theorem AVDemuxThread.audioBranch_owner (s : AVDemuxThread) (pkt : Packet) (a q0 : AVThread)
    (ha : s.audio_thread = some a) (hrun : a.isRunning = true)
    (hq : s.aqueueOwner = some q0) :
    ∃ q', (s.audioBranch pkt).aqueueOwner = some q'
      ∧ q'.packets.queue = q0.packets.queue ++ [pkt]
      ∧ q'.packets.block_full = s.audioBlockFullArg
      ∧ (s.aqueue = some a.addr → (s.audioBranch pkt).audio_thread = some q') := by
  have hqs : s.aqueue.isSome = true := by
    unfold AVDemuxThread.aqueueOwner at hq
    cases h : s.aqueue with
    | none => rw [h] at hq; cases hq
    | some p => rfl
  rw [AVDemuxThread.audioBranch_running s pkt a hqs ha hrun]
  simp only [AVDemuxThread.onAqueue_aqueueOwner, hq, Option.map_some']
  refine ⟨_, rfl, rfl, rfl, ?_⟩
  intro htie
  have hqa : q0 = a := by
    unfold AVDemuxThread.aqueueOwner at hq
    simp [htie, ha] at hq
    exact hq.symm
  rw [AVDemuxThread.onAqueue_audio_thread, AVDemuxThread.onAqueue_audio_thread]
  simp [htie, ha, hqa, AVThread.onQueue]

/-- When the argument of `aqueue->blockFull(...)` is true. -/
theorem AVDemuxThread.audioBlockFullArg_iff (s : AVDemuxThread) :
    (s.audioBlockFullArg = true ↔
      (s.video_thread = none
        ∨ (∃ v, s.video_thread = some v ∧ v.isRunning = false)
        ∨ s.vqueue = none
        ∨ (∃ o, s.vqueueOwner = some o ∧ o.packets.isEnough = true)
        ∨ s.demuxer.hasAttacedPicture = true))
    ∧ (s.vqueue = s.video_thread.map AVThread.addr →
        (s.audioBlockFullArg = true ↔
          (s.video_thread = none
            ∨ (∃ v, s.video_thread = some v ∧ v.isRunning = false)
            ∨ (∃ v, s.video_thread = some v ∧ v.packets.isEnough = true)
            ∨ s.demuxer.hasAttacedPicture = true))) := by
  unfold AVDemuxThread.audioBlockFullArg
  simp only [AVDemuxer.hasAttacedPicture, AVThread.packetQueue]
  constructor
  · cases hv : s.video_thread with
    | none => simp
    | some v =>
      cases hvq : s.vqueue with
      | none => simp
      | some pv =>
        cases ho : s.vqueueOwner with
        | none =>
          cases hr : v.isRunning <;> cases hp : s.demuxer.attached_picture <;> simp [hr]
        | some o =>
          cases hr : v.isRunning <;> cases he : o.packets.isEnough <;>
            cases hp : s.demuxer.attached_picture <;> simp [hr, he]
  · intro htie
    cases hv : s.video_thread with
    | none => simp
    | some v =>
      have hvq : s.vqueue = some v.addr := by rw [htie, hv]; rfl
      have ho : s.vqueueOwner = some v := by
        unfold AVDemuxThread.vqueueOwner; simp [hvq, hv]
      cases hr : v.isRunning <;> cases he : v.packets.isEnough <;>
        cases hp : s.demuxer.attached_picture <;> simp [hr, he, hvq, ho]

/-- C1 amended: in a read-loop iteration that reads a non-end packet of the
audio stream while the audio pipeline is attached and running and the local
`aqueue` of `run()` points to a queue (of the pipeline `q0`), the
block-when-full flag the coordinator sets on that queue before pushing the
packet onto it is true exactly when at least one of these holds: the video
pipeline is absent, the video pipeline is not running, the local `vqueue` is
null (no video pipeline was attached when `run()` began), the queue `vqueue`
points to is `isEnough()`, the source has an attached picture; it is false
when none holds.  When `aqueue` points to the queue of the attached audio
pipeline, that queue is the one that gets the flag and the packet; when
`vqueue` is the queue of the attached video pipeline (or null with no video
pipeline attached), the flag is true exactly when the video pipeline is
absent, or not running, or its queue is `isEnough()`, or the source has an
attached picture.  (`d.processNextSeekTask` is the state of the iteration
after its seek-task step.) -/
theorem C1_audio_block_full (d : AVDemuxThread) (a q0 : AVThread) (i : Int) (pkt : Packet)
    (rest : List (Option (Int × Packet)))
    (hend : d.end_ = false)
    (hpause : d.processNextSeekTask.tryPause = false)
    (ha : d.processNextSeekTask.audio_thread = some a) (hrun : a.isRunning = true)
    (hq : d.processNextSeekTask.aqueueOwner = some q0)
    (hframes : d.processNextSeekTask.demuxer.frames = some (i, pkt) :: rest)
    (hi : i = d.processNextSeekTask.audio_stream) (hpkt : pkt.isEnd = false) :
    ∃ q', d.loopBody.2.aqueueOwner = some q'
      ∧ q'.packets.queue = q0.packets.queue ++ [pkt]
      ∧ (q'.packets.block_full = true ↔
          (d.processNextSeekTask.video_thread = none
            ∨ (∃ v, d.processNextSeekTask.video_thread = some v ∧ v.isRunning = false)
            ∨ d.processNextSeekTask.vqueue = none
            ∨ (∃ o, d.processNextSeekTask.vqueueOwner = some o ∧ o.packets.isEnough = true)
            ∨ d.processNextSeekTask.demuxer.hasAttacedPicture = true))
      ∧ (d.processNextSeekTask.aqueue = some a.addr → d.loopBody.2.audio_thread = some q')
      ∧ (d.processNextSeekTask.vqueue
            = d.processNextSeekTask.video_thread.map AVThread.addr →
          (q'.packets.block_full = true ↔
            (d.processNextSeekTask.video_thread = none
              ∨ (∃ v, d.processNextSeekTask.video_thread = some v ∧ v.isRunning = false)
              ∨ (∃ v, d.processNextSeekTask.video_thread = some v ∧ v.packets.isEnough = true)
              ∨ d.processNextSeekTask.demuxer.hasAttacedPicture = true))) := by
  rw [AVDemuxThread.loopBody_audio d a i pkt rest hend hpause ha hrun hframes hi hpkt]
  obtain ⟨q', h1, h2, h3, h4⟩ := AVDemuxThread.audioBranch_owner
    { d.processNextSeekTask with
      demuxer := { d.processNextSeekTask.demuxer with
                    frames := rest, cur_stream := i, cur_packet := pkt } } pkt a q0 ha hrun hq
  have h5 := AVDemuxThread.audioBlockFullArg_iff
    { d.processNextSeekTask with
      demuxer := { d.processNextSeekTask.demuxer with
                    frames := rest, cur_stream := i, cur_packet := pkt } }
  rw [← h3] at h5
  exact ⟨q', h1, h2, h5.1, h4, h5.2⟩

/-- Witness of C1: the first iteration of the example coordinator. -/
theorem C1_witness :
    ∃ q', exLooping.loopBody.2.aqueueOwner = some q'
      ∧ q'.packets.queue = [exPacket 1]
      ∧ (q'.packets.block_full = true ↔
          (exLooping.processNextSeekTask.video_thread = none
            ∨ (∃ v, exLooping.processNextSeekTask.video_thread = some v ∧ v.isRunning = false)
            ∨ (∃ v, exLooping.processNextSeekTask.video_thread = some v
                ∧ v.packets.isEnough = true)
            ∨ exLooping.processNextSeekTask.demuxer.hasAttacedPicture = true))
      ∧ exLooping.loopBody.2.audio_thread = some q' := by
  obtain ⟨q', h1, h2, _, h4, h5⟩ := C1_audio_block_full exLooping
    ((exAudio.onQueue BlockingQueue.setEmptyCallback).onQueue
      (fun q => (BlockingQueue.clear q).setBlocking true))
    ((exAudio.onQueue BlockingQueue.setEmptyCallback).onQueue
      (fun q => (BlockingQueue.clear q).setBlocking true))
    0 (exPacket 1) (exLooping.processNextSeekTask.demuxer.frames.tail)
    (by decide) (by decide) (by decide) (by decide) (by decide) (by decide) (by decide)
    (by decide)
  exact ⟨q', h1, h2, h5 (by decide), h4 (by decide)⟩

/-- The case the locals of `run()` make: a video pipeline attached after
`run()` began.  In the next iteration that reads an audio packet the video
pipeline is attached, running, its queue not `isEnough()`, there is no
attached picture, yet `vqueue` is null and the flag set on the audio queue
is true. -/
theorem exLateVideo_evaluated :
    execEvents [.setAudioThread (some exAudio), .runStart, .setVideoThread (some exVideo)]
        (AVDemuxThread.new exDemuxer) = some exLateVideo
    ∧ exLateVideo.vqueue = none
    ∧ exLateVideo.video_thread.map AVThread.isRunning = some true
    ∧ exLateVideo.video_thread.map (fun t => t.packets.isEnough) = some false
    ∧ exLateVideo.demuxer.hasAttacedPicture = false
    ∧ exLateVideo.loopBody.2.audio_thread.map (fun t => t.packets.block_full) = some true
    ∧ exLateVideo.loopBody.2.audio_thread.map (fun t => t.packets.queue)
        = some [exPacket 1] := by
  decide

/-- C4 as stated fails for two pipelines: from the paused coordinator with both
pipelines attached and step counter 0, `nextFrame()` leaves the counter at 1,
not 2, and the first frame-delivered event already re-pauses the coordinator
and both pipelines. -/
theorem C4_counterexample :
    exPaused.paused = true
    ∧ exPaused.user_paused = true
    ∧ exPaused.nb_next_frame = 0
    ∧ exPaused.audio_thread.isSome = true
    ∧ exPaused.video_thread.isSome = true
    ∧ exPaused.nextFrame.nb_next_frame = 1
    ∧ exPaused.nextFrame.paused = false
    ∧ exPaused.nextFrame.frameDeliveredNextFrame.map (fun d => d.paused) = some true
    ∧ exPaused.nextFrame.frameDeliveredNextFrame.map
        (fun d => d.audio_thread.map (fun t => t.paused)) = some (some true)
    ∧ exPaused.nextFrame.frameDeliveredNextFrame.map
        (fun d => d.video_thread.map (fun t => t.paused)) = some (some true) := by
  decide

/-- The effect of `nextFrame()` and of the frame-delivered event that follows
it, on a coordinator whose two pause flags are set and whose step counter
is 0. -/
theorem AVDemuxThread.nextFrame_then_delivered (d : AVDemuxThread) (hp : d.paused = true)
    (hu : d.user_paused = true) (hnb : d.nb_next_frame = 0)
    (hk : d.video_thread.isSome = true ∨ d.audio_thread.isSome = true) :
    d.nextFrame.user_paused = true
    ∧ d.nextFrame.paused = false
    ∧ d.nextFrame.nb_next_frame = 1
    ∧ (∀ t, d.nextFrame.video_thread = some t → t.paused = false)
    ∧ (∀ t, d.nextFrame.audio_thread = some t → t.paused = false)
    ∧ ∃ d', d.nextFrame.frameDeliveredNextFrame = some d'
        ∧ d'.paused = true
        ∧ d'.user_paused = true
        ∧ d'.nb_next_frame = 0
        ∧ (∀ t, d'.video_thread = some t → t.paused = true)
        ∧ (∀ t, d'.audio_thread = some t → t.paused = true)
        ∧ d'.video_thread.isSome = d.video_thread.isSome
        ∧ d'.audio_thread.isSome = d.audio_thread.isSome := by
  cases d with
  | mk p u e dm a v as vs nb st cp aq vq da dv =>
    simp only at hp hu hnb hk
    subst hp hu hnb
    cases v <;> cases a <;>
      simp_all [AVDemuxThread.nextFrame, AVDemuxThread.pause, AVDemuxThread.pauseInternal,
        AVDemuxThread.frameDeliveredNextFrame, AVDemuxThread.videoOrAudio,
        AVDemuxThread.onVideoOrAudio, AVDemuxThread.onVideo, AVDemuxThread.onAudio,
        AVThread.pause, AVThread.onQueue]

/-- C4 amended: from a reachable paused coordinator with step counter 0 and at
least one pipeline attached, `nextFrame()` leaves `user_paused` true, `paused`
false, every attached pipeline un-paused and the step counter equal to 1
(whatever the number of attached pipelines); the first frame-delivered event
then returns the counter to 0 and re-enters the paused state: `paused` and
`user_paused` true and every attached pipeline paused again. -/
theorem C4_step_frame (dmx : AVDemuxer) (es : List Event) (d : AVDemuxThread)
    (hreach : execEvents es (AVDemuxThread.new dmx) = some d)
    (hp : d.paused = true) (hnb : d.nb_next_frame = 0)
    (hk : d.video_thread.isSome = true ∨ d.audio_thread.isSome = true) :
    d.nextFrame.user_paused = true
    ∧ d.nextFrame.paused = false
    ∧ d.nextFrame.nb_next_frame = 1
    ∧ (∀ t, d.nextFrame.video_thread = some t → t.paused = false)
    ∧ (∀ t, d.nextFrame.audio_thread = some t → t.paused = false)
    ∧ ∃ d', d.nextFrame.frameDeliveredNextFrame = some d'
        ∧ d'.paused = true
        ∧ d'.user_paused = true
        ∧ d'.nb_next_frame = 0
        ∧ (∀ t, d'.video_thread = some t → t.paused = true)
        ∧ (∀ t, d'.audio_thread = some t → t.paused = true)
        ∧ d'.video_thread.isSome = d.video_thread.isSome
        ∧ d'.audio_thread.isSome = d.audio_thread.isSome :=
  AVDemuxThread.nextFrame_then_delivered d hp
    (execEvents_inv es (AVDemuxThread.new dmx) d (by intro h; cases h) hreach hp) hnb hk

/-- Witness of C4: the paused coordinator with only the audio pipeline attached. -/
theorem C4_witness :
    execEvents [.setAudioThread (some exAudio), .pause true] (AVDemuxThread.new exDemuxer)
      = some exPausedAudioOnly
    ∧ exPausedAudioOnly.nextFrame.nb_next_frame = 1
    ∧ ∃ d', exPausedAudioOnly.nextFrame.frameDeliveredNextFrame = some d' ∧ d'.paused = true :=
  have h := C4_step_frame exDemuxer [.setAudioThread (some exAudio), .pause true]
    exPausedAudioOnly (by decide) (by decide) (by decide) (by decide)
  ⟨by decide, h.2.2.1, by
    obtain ⟨d', h1, h2, _⟩ := h.2.2.2.2.2
    exact ⟨d', h1, h2⟩⟩

/-- C9 fails on the code at the state right after `nextFrame()`: there
`paused` is false and `user_paused` is true, `pause(false)` returns early and
leaves `user_paused` true, and the frame-delivered notification that follows
pauses the coordinator again. -/
theorem C9_pause_false_after_step :
    exPaused.nextFrame.paused = false
    ∧ exPaused.nextFrame.user_paused = true
    ∧ (exPaused.nextFrame.pause false).isPaused = false
    ∧ (exPaused.nextFrame.pause false).user_paused = true
    ∧ (exPaused.nextFrame.pause false).frameDeliveredNextFrame.map (fun d => d.paused)
        = some true := by
  decide

/-- C7: on a paused coordinator with at least one pipeline attached, executing
the seek task (`seekInternal`) clears `paused`, leaves `user_paused` unchanged
and un-pauses exactly the pipeline `video_thread ? video_thread : audio_thread`
(with the video pipeline attached, the audio pipeline's pause flag is left as
it was).  When `frameDeliveredSeekOnPause` then fires in a state `t` with the
same pipelines attached: if `user_paused` is true there, the coordinator is
paused again and that same pipeline is paused again; if `user_paused` is
false there, neither the coordinator's nor any pipeline's pause flag
changes. -/
theorem C7_seek_while_paused (d : AVDemuxThread) (pos : Int) (t : AVDemuxThread)
    (hp : d.paused = true)
    (hk : d.video_thread.isSome = true ∨ d.audio_thread.isSome = true)
    (htv : t.video_thread.isSome = d.video_thread.isSome)
    (hta : t.audio_thread.isSome = d.audio_thread.isSome) :
    ((d.seekInternal pos).paused = false
      ∧ (d.seekInternal pos).user_paused = d.user_paused
      ∧ (d.seekInternal pos).videoOrAudio.map (fun x => x.paused) = some false
      ∧ (d.video_thread.isSome = true →
          (d.seekInternal pos).audio_thread.map (fun x => x.paused)
            = d.audio_thread.map (fun x => x.paused))
      ∧ (d.seekInternal pos).video_thread.isSome = d.video_thread.isSome
      ∧ (d.seekInternal pos).audio_thread.isSome = d.audio_thread.isSome)
    ∧ (t.user_paused = true →
        ∃ t', t.frameDeliveredSeekOnPause = some t'
          ∧ t'.paused = true
          ∧ t'.user_paused = true
          ∧ t'.videoOrAudio.map (fun x => x.paused) = some true
          ∧ (t.video_thread.isSome = true →
              t'.audio_thread.map (fun x => x.paused) = t.audio_thread.map (fun x => x.paused)))
    ∧ (t.user_paused = false →
        ∃ t', t.frameDeliveredSeekOnPause = some t'
          ∧ t'.paused = t.paused
          ∧ t'.user_paused = false
          ∧ t'.video_thread.map (fun x => x.paused) = t.video_thread.map (fun x => x.paused)
          ∧ t'.audio_thread.map (fun x => x.paused)
              = t.audio_thread.map (fun x => x.paused)) := by
  refine ⟨?_, ?_, ?_⟩
  · cases d with
    | mk p u e dm a v as vs nb st cp aq vq da dv =>
      simp only at hp hk
      subst hp
      cases v <;> cases a <;>
        simp_all [AVDemuxThread.seekInternal, AVDemuxThread.pauseInternal,
          AVDemuxThread.isPaused, AVDemuxThread.videoOrAudio, AVDemuxThread.onVideoOrAudio,
          AVDemuxThread.onVideo, AVDemuxThread.onAudio, AVThread.pause, AVThread.onQueue,
          AVThread.setDemuxEnded]
  · intro hu
    have hkt : t.video_thread.isSome = true ∨ t.audio_thread.isSome = true := by
      rw [htv, hta]; exact hk
    cases t with
    | mk p u e dm a v as vs nb st cp aq vq da dv =>
      simp only at hu hkt
      subst hu
      cases v <;> cases a <;> cases p <;>
        simp_all [AVDemuxThread.frameDeliveredSeekOnPause, AVDemuxThread.pause,
          AVDemuxThread.videoOrAudio, AVDemuxThread.onVideoOrAudio,
          AVDemuxThread.onVideo, AVDemuxThread.onAudio, AVThread.pause]
  · intro hu
    have hkt : t.video_thread.isSome = true ∨ t.audio_thread.isSome = true := by
      rw [htv, hta]; exact hk
    cases t with
    | mk p u e dm a v as vs nb st cp aq vq da dv =>
      simp only at hu hkt
      subst hu
      cases v <;> cases a <;>
        simp_all [AVDemuxThread.frameDeliveredSeekOnPause, AVDemuxThread.pause,
          AVDemuxThread.videoOrAudio, AVDemuxThread.onVideoOrAudio,
          AVDemuxThread.onVideo, AVDemuxThread.onAudio, AVThread.pause]

/-- Witness of C7: a seek executed on the paused example coordinator, the
notification firing right after it. -/
theorem C7_witness :
    exPaused.paused = true
    ∧ (exPaused.seekInternal 5000).paused = false
    ∧ (exPaused.seekInternal 5000).videoOrAudio.map (fun x => x.paused) = some false
    ∧ ∃ t', (exPaused.seekInternal 5000).frameDeliveredSeekOnPause = some t'
        ∧ t'.paused = true
        ∧ t'.videoOrAudio.map (fun x => x.paused) = some true :=
  have h := C7_seek_while_paused exPaused 5000 (exPaused.seekInternal 5000)
    (by decide) (by decide) (by decide) (by decide)
  ⟨by decide, h.1.1, h.1.2.2.1, by
    obtain ⟨t', h1, h2, _, h4, _⟩ := h.2.1 (by decide)
    exact ⟨t', h1, h2, h4⟩⟩

theorem AVDemuxThread.stopThreadLoop_stopped (fuel : Nat) (t : AVThread)
    (h : t.isRunning = false) : AVDemuxThread.stopThreadLoop fuel t = some t := by
  cases fuel <;> simp [AVDemuxThread.stopThreadLoop, h]

theorem AVDemuxThread.stopThreadLoop_spec (fuel : Nat) (t : AVThread)
    (h : t.wait_ticks < fuel) :
    ∃ t', AVDemuxThread.stopThreadLoop fuel t = some t' ∧ t'.isRunning = false
      ∧ t'.packets = t.packets ∧ t'.demux_ended = t.demux_ended ∧ t'.paused = t.paused := by
  induction fuel generalizing t with
  | zero => omega
  | succ n ih =>
    unfold AVDemuxThread.stopThreadLoop
    cases hr : t.isRunning with
    | false => exact ⟨t, by simp, hr, rfl, rfl, rfl⟩
    | true =>
      simp only [if_true]
      cases hw : t.wait_ticks with
      | zero =>
        have hs : (t.stop.wait).isRunning = false := by
          simp [AVThread.stop, AVThread.wait, AVThread.isRunning, hw]
        rw [AVDemuxThread.stopThreadLoop_stopped n _ hs]
        refine ⟨_, rfl, hs, ?_, ?_, ?_⟩ <;> simp [AVThread.stop, AVThread.wait, hw]
      | succ k =>
        have hlt : (t.stop.wait).wait_ticks < n := by
          simp [AVThread.stop, AVThread.wait, hw]; omega
        obtain ⟨t', h1, h2, h3, h4, h5⟩ := ih (t.stop.wait) hlt
        refine ⟨t', h1, h2, ?_, ?_, ?_⟩
        · rw [h3]; simp [AVThread.stop, AVThread.wait, hw]
        · rw [h4]; simp [AVThread.stop, AVThread.wait, hw]
        · rw [h5]; simp [AVThread.stop, AVThread.wait, hw]

theorem AVDemuxThread.stopThread_spec (fuel : Nat) (t : AVThread) (h : t.wait_ticks < fuel) :
    ∃ t', AVDemuxThread.stopThread fuel t = some t' ∧ t'.isRunning = false
      ∧ t'.demux_ended = true ∧ t'.packets.queue = [] ∧ t'.packets.block_full = false := by
  unfold AVDemuxThread.stopThread
  obtain ⟨t', h1, h2, h3, h4, _⟩ := AVDemuxThread.stopThreadLoop_spec fuel
    (((t.setDemuxEnded true).onQueue BlockingQueue.clear).onQueue fun q => q.blockFull false)
    (by simpa [AVThread.setDemuxEnded, AVThread.onQueue] using h)
  refine ⟨t', h1, h2, ?_, ?_, ?_⟩
  · rw [h4]; rfl
  · rw [h3]; rfl
  · rw [h3]; rfl

theorem AVDemuxThread.stopThread_stopped (fuel : Nat) (t : AVThread)
    (h1 : t.isRunning = false) (h2 : t.demux_ended = true) (h3 : t.packets.queue = [])
    (h4 : t.packets.block_full = false) : AVDemuxThread.stopThread fuel t = some t := by
  unfold AVDemuxThread.stopThread
  have : (((t.setDemuxEnded true).onQueue BlockingQueue.clear).onQueue
      fun q => q.blockFull false) = t := by
    cases t with
    | mk addr packets de pa ru sr wt c1 c2 =>
      cases packets
      simp_all [AVThread.setDemuxEnded, AVThread.onQueue, BlockingQueue.clear,
        BlockingQueue.blockFull]
  simp only [this]
  exact AVDemuxThread.stopThreadLoop_stopped fuel t h1

/-- C8: from every coordinator state, when `fuel` exceeds the number of timed
waits each attached pipeline needs before it reports not-running, `stop()`
returns; afterwards `isEnd()` is true, `isPaused()` is false, and every
attached pipeline is marked source-ended, has an empty queue and is not
running.  A second `stop()` (with any fuel) returns the very same state, so
`paused`, `user_paused` and `end` are exactly as the first call left them. -/
theorem C8_stop (d : AVDemuxThread) (fuel : Nat)
    (ha : ∀ t, d.audio_thread = some t → t.wait_ticks < fuel)
    (hv : ∀ t, d.video_thread = some t → t.wait_ticks < fuel) :
    ∃ d', d.stop fuel = some d'
      ∧ d'.isEnd = true
      ∧ d'.isPaused = false
      ∧ d'.audio_thread.isSome = d.audio_thread.isSome
      ∧ d'.video_thread.isSome = d.video_thread.isSome
      ∧ (∀ t, d'.audio_thread = some t →
          t.demux_ended = true ∧ t.packets.isEmpty = true ∧ t.isRunning = false)
      ∧ (∀ t, d'.video_thread = some t →
          t.demux_ended = true ∧ t.packets.isEmpty = true ∧ t.isRunning = false)
      ∧ ∀ fuel2, ∃ d'', d'.stop fuel2 = some d''
          ∧ d''.paused = d'.paused ∧ d''.user_paused = d'.user_paused ∧ d''.end_ = d'.end_ := by
  cases d with
  | mk p u e dm a v as vs nb st cp aq vq da dv =>
    cases a with
    | none =>
      cases v with
      | none =>
        cases p <;>
          simp [AVDemuxThread.stop, AVDemuxThread.pause, AVDemuxThread.isEnd,
            AVDemuxThread.isPaused]
      | some vt =>
        obtain ⟨vt', h1, h2, h3, h4, h5⟩ := AVDemuxThread.stopThread_spec fuel vt (hv vt rfl)
        have hs := fun f => AVDemuxThread.stopThread_stopped f vt' h2 h3 h4 h5
        cases p <;>
          simp [AVDemuxThread.stop, AVDemuxThread.pause, AVDemuxThread.isEnd,
            AVDemuxThread.isPaused, h1, h2, h3, h4, hs, BlockingQueue.isEmpty]
    | some at_ =>
      obtain ⟨at', g1, g2, g3, g4, g5⟩ := AVDemuxThread.stopThread_spec fuel at_ (ha at_ rfl)
      have gs := fun f => AVDemuxThread.stopThread_stopped f at' g2 g3 g4 g5
      cases v with
      | none =>
        cases p <;>
          simp [AVDemuxThread.stop, AVDemuxThread.pause, AVDemuxThread.isEnd,
            AVDemuxThread.isPaused, g1, g2, g3, g4, gs, BlockingQueue.isEmpty]
      | some vt =>
        obtain ⟨vt', h1, h2, h3, h4, h5⟩ := AVDemuxThread.stopThread_spec fuel vt (hv vt rfl)
        have hs := fun f => AVDemuxThread.stopThread_stopped f vt' h2 h3 h4 h5
        cases p <;>
          simp [AVDemuxThread.stop, AVDemuxThread.pause, AVDemuxThread.isEnd,
            AVDemuxThread.isPaused, g1, g2, g3, g4, gs, h1, h2, h3, h4, hs,
            BlockingQueue.isEmpty]

/-- Witness of C8: `stop()` on the paused example coordinator. -/
theorem C8_witness :
    ∃ d', exPaused.stop 3 = some d' ∧ d'.isEnd = true ∧ d'.isPaused = false
      ∧ (∀ t, d'.audio_thread = some t →
          t.demux_ended = true ∧ t.packets.isEmpty = true ∧ t.isRunning = false)
      ∧ ∃ d'', d'.stop 0 = some d''
          ∧ d''.paused = d'.paused ∧ d''.user_paused = d'.user_paused ∧ d''.end_ = d'.end_ := by
  obtain ⟨d', h1, h2, h3, _, _, h6, _, h8⟩ := C8_stop exPaused 3
    (by
      intro t h
      rw [show exPaused.audio_thread = some (exAudio.onQueue BlockingQueue.setEmptyCallback)
        from by decide] at h
      cases h; decide)
    (by
      intro t h
      rw [show exPaused.video_thread = some (exVideo.onQueue BlockingQueue.setEmptyCallback)
        from by decide] at h
      cases h; decide)
  exact ⟨d', h1, h2, h3, h6, h8 0⟩

theorem AVDemuxThread.seekInternal_frames (d : AVDemuxThread) (pos : Int) :
    (d.seekInternal pos).demuxer.frames = d.demuxer.frames := by
  unfold AVDemuxThread.seekInternal AVDemuxThread.pauseInternal; simp only []
  split <;> simp [AVDemuxer.seek]

theorem AVDemuxThread.seekInternal_running (d : AVDemuxThread) (pos : Int) :
    (d.seekInternal pos).audio_thread.map AVThread.isRunning
        = d.audio_thread.map AVThread.isRunning
    ∧ (d.seekInternal pos).video_thread.map AVThread.isRunning
        = d.video_thread.map AVThread.isRunning := by
  cases d with
  | mk p u e dm a v as vs nb st cp aq vq da dv =>
    cases p <;> cases a <;> cases v <;>
      simp [AVDemuxThread.seekInternal, AVDemuxThread.pauseInternal, AVDemuxThread.isPaused,
        AVDemuxThread.onVideoOrAudio, AVDemuxThread.onVideo, AVDemuxThread.onAudio,
        AVThread.pause, AVThread.onQueue, AVThread.setDemuxEnded, AVThread.isRunning]

theorem AVDemuxThread.processNextSeekTask_frames (d : AVDemuxThread) :
    d.processNextSeekTask.demuxer.frames = d.demuxer.frames := by
  unfold AVDemuxThread.processNextSeekTask
  split
  · rfl
  · split
    · rfl
    · rw [AVDemuxThread.seekInternal_frames]

theorem AVDemuxThread.processNextSeekTask_running (d : AVDemuxThread) :
    d.processNextSeekTask.audio_thread.map AVThread.isRunning
        = d.audio_thread.map AVThread.isRunning
    ∧ d.processNextSeekTask.video_thread.map AVThread.isRunning
        = d.video_thread.map AVThread.isRunning := by
  unfold AVDemuxThread.processNextSeekTask
  split
  · exact ⟨rfl, rfl⟩
  · split
    · exact ⟨rfl, rfl⟩
    · exact AVDemuxThread.seekInternal_running _ _

theorem AVDemuxThread.waitThreadLoop_stopped (fuel : Nat) (t : AVThread)
    (h : t.isRunning = false) : AVDemuxThread.waitThreadLoop fuel t = some t := by
  cases fuel <;> simp [AVDemuxThread.waitThreadLoop, h]

/-- The part of `run()` after the read loop returns at once when no attached
pipeline is running, and leaves `end` as it is. -/
theorem AVDemuxThread.runFinish_stopped (fuel : Nat) (d : AVDemuxThread)
    (ha : d.audio_thread.map AVThread.isRunning ≠ some true)
    (hv : d.video_thread.map AVThread.isRunning ≠ some true) :
    ∃ d', d.runFinish fuel = some d' ∧ d'.end_ = d.end_ := by
  have ha2 : ((d.onAqueue fun q => q.put Packet.default).onVqueue
      fun q => q.put Packet.default).audio_thread.map AVThread.isRunning ≠ some true := by
    rw [AVDemuxThread.onVqueue_audio_thread, (AVDemuxThread.onAqueue_audio_running d _).1]
    exact ha
  have hv2 : ((d.onAqueue fun q => q.put Packet.default).onVqueue
      fun q => q.put Packet.default).video_thread.map AVThread.isRunning ≠ some true := by
    rw [(AVDemuxThread.onVqueue_video_running _ _).1, AVDemuxThread.onAqueue_video_thread]
    exact hv
  have he : ((d.onAqueue fun q => q.put Packet.default).onVqueue
      fun q => q.put Packet.default).end_ = d.end_ := by simp
  unfold AVDemuxThread.runFinish
  simp only []
  generalize ((d.onAqueue fun q => q.put Packet.default).onVqueue
      fun q => q.put Packet.default) = d2 at *
  cases h1 : d2.audio_thread with
  | none =>
    cases h2 : d2.video_thread with
    | none => exact ⟨_, rfl, he⟩
    | some v =>
      have hrv : v.isRunning = false := by
        rw [h2] at hv2; simpa using hv2
      simp only [AVDemuxThread.waitThreadLoop_stopped fuel v hrv, Option.map_some']
      exact ⟨_, rfl, he⟩
  | some a =>
    have hra : a.isRunning = false := by
      rw [h1] at ha2; simpa using ha2
    cases h2 : d2.video_thread with
    | none =>
      simp only [AVDemuxThread.waitThreadLoop_stopped fuel a hra, Option.map_some']
      exact ⟨_, rfl, he⟩
    | some v =>
      have hrv : v.isRunning = false := by
        rw [h2] at hv2; simpa using hv2
      simp only [AVDemuxThread.waitThreadLoop_stopped fuel a hra,
        AVDemuxThread.waitThreadLoop_stopped fuel v hrv, Option.map_some']
      exact ⟨_, rfl, he⟩

/-- C6 as stated fails: in the read loop of a coordinator that is not paused
and whose two attached pipelines are both stopped, the iteration leaves the
loop without reading, but `isEnd()` is false afterwards, also once `run()`
has returned; likewise for a coordinator with no pipeline attached. -/
theorem C6_counterexample :
    exStoppedPipelines.end_ = false
    ∧ exStoppedPipelines.processNextSeekTask.tryPause = false
    ∧ exStoppedPipelines.audio_thread.map AVThread.isRunning = some false
    ∧ exStoppedPipelines.video_thread.map AVThread.isRunning = some false
    ∧ exStoppedPipelines.loopBody.1 = AVDemuxThread.LoopExit.brk
    ∧ exStoppedPipelines.loopBody.2.demuxer = exStoppedPipelines.demuxer
    ∧ (AVDemuxThread.runLoop 1 exStoppedPipelines).map AVDemuxThread.isEnd = some false
    ∧ ((AVDemuxThread.runLoop 1 exStoppedPipelines).bind (AVDemuxThread.runFinish 0)).map
        AVDemuxThread.isEnd = some false
    ∧ ((AVDemuxThread.new exDemuxer).run 1).map AVDemuxThread.isEnd = some false := by
  decide

/-- C6 amended: in a read-loop iteration that is not paused and in which no
attached pipeline is running (both absent or stopped), the loop exits without
reading from the source; the exit does not set the ending flag, so `isEnd()`
is false afterwards, as it was when the iteration began, and stays false
through the rest of `run()`. -/
theorem C6_no_running_pipeline (d : AVDemuxThread)
    (hend : d.end_ = false)
    (hpause : d.processNextSeekTask.tryPause = false)
    (ha : ∀ t, d.audio_thread = some t → t.isRunning = false)
    (hv : ∀ t, d.video_thread = some t → t.isRunning = false) :
    d.loopBody = (.brk, d.processNextSeekTask)
    ∧ d.processNextSeekTask.demuxer.frames = d.demuxer.frames
    ∧ (∀ fuel, AVDemuxThread.runLoop (fuel + 1) d = some d.processNextSeekTask)
    ∧ d.processNextSeekTask.isEnd = false
    ∧ ∀ fuel, ∃ d', d.processNextSeekTask.runFinish fuel = some d' ∧ d'.isEnd = false := by
  have hra : d.processNextSeekTask.audio_thread.map AVThread.isRunning ≠ some true := by
    rw [(AVDemuxThread.processNextSeekTask_running d).1]
    cases h : d.audio_thread with
    | none => simp
    | some t => simp [ha t h]
  have hrv : d.processNextSeekTask.video_thread.map AVThread.isRunning ≠ some true := by
    rw [(AVDemuxThread.processNextSeekTask_running d).2]
    cases h : d.video_thread with
    | none => simp
    | some t => simp [hv t h]
  have hend1 : d.processNextSeekTask.end_ = false := by
    rw [AVDemuxThread.processNextSeekTask_end]; exact hend
  have hbody : d.loopBody = (.brk, d.processNextSeekTask) := by
    unfold AVDemuxThread.loopBody
    generalize d.processNextSeekTask = d1 at *
    have hrt : d1.runningThreads = 0 := by
      unfold AVDemuxThread.runningThreads
      cases h1 : d1.audio_thread <;> cases h2 : d1.video_thread <;> simp_all
    simp [hpause, hrt]
  refine ⟨hbody, AVDemuxThread.processNextSeekTask_frames d, ?_, hend1, ?_⟩
  · intro fuel
    unfold AVDemuxThread.runLoop
    simp [hend, hbody]
  · intro fuel
    obtain ⟨d', h1, h2⟩ := AVDemuxThread.runFinish_stopped fuel d.processNextSeekTask hra hrv
    exact ⟨d', h1, by unfold AVDemuxThread.isEnd; rw [h2]; exact hend1⟩

/-- Witness of C6: the example coordinator with both pipelines stopped. -/
theorem C6_witness :
    exStoppedPipelines.loopBody = (.brk, exStoppedPipelines.processNextSeekTask)
    ∧ exStoppedPipelines.processNextSeekTask.isEnd = false :=
  have h := C6_no_running_pipeline exStoppedPipelines (by decide) (by decide)
    (by
      intro t h
      have h2 : exStoppedPipelines.audio_thread.map AVThread.isRunning = some false := by decide
      rw [h] at h2; simpa using h2)
    (by
      intro t h
      have h2 : exStoppedPipelines.video_thread.map AVThread.isRunning = some false := by decide
      rw [h] at h2; simpa using h2)
  ⟨h.1, h.2.2.2.1⟩

theorem AVDemuxThread.pause_seek_tasks (d : AVDemuxThread) (p : Bool) :
    (d.pause p).seek_tasks = d.seek_tasks := by
  unfold AVDemuxThread.pause; split <;> rfl

theorem AVDemuxThread.seekInternal_seek_tasks (d : AVDemuxThread) (pos : Int) :
    (d.seekInternal pos).seek_tasks = d.seek_tasks := by
  unfold AVDemuxThread.seekInternal AVDemuxThread.pauseInternal; simp only []; split <;> simp

theorem AVDemuxThread.seekInternal_seeks (d : AVDemuxThread) (pos : Int) :
    (d.seekInternal pos).demuxer.seeks = d.demuxer.seeks ++ [pos] := by
  unfold AVDemuxThread.seekInternal AVDemuxThread.pauseInternal; simp only []
  split <;> simp [AVDemuxer.seek]

theorem AVDemuxThread.nextFrame_seek_tasks (d : AVDemuxThread) :
    d.nextFrame.seek_tasks = d.seek_tasks := by
  cases d with
  | mk p u e dm a v as vs nb st cp aq vq da dv =>
    cases p <;> cases v <;> cases a <;>
      simp [AVDemuxThread.nextFrame, AVDemuxThread.pauseInternal, AVDemuxThread.pause]

theorem AVDemuxThread.processNextSeekTask_slot (d : AVDemuxThread) (h : d.SlotInv) :
    d.processNextSeekTask.SlotInv := by
  unfold AVDemuxThread.SlotInv at *
  unfold AVDemuxThread.processNextSeekTask
  split
  · exact h
  · split
    · exact h
    · rename_i position rest heq
      rw [AVDemuxThread.seekInternal_seek_tasks]
      simp only
      unfold BlockingQueue.take at heq
      split at heq
      · cases heq
      · rename_i x xs hq
        cases heq
        simp only
        rw [hq] at h
        simp only [List.length_cons] at h
        exact ⟨h.1, by omega⟩

theorem AVDemuxThread.seek_seek_tasks (d : AVDemuxThread) (pos : Int) (h : d.SlotInv) :
    (d.seek pos).seek_tasks = { d.seek_tasks with queue := [pos] } := by
  obtain ⟨hc, hl⟩ := h
  cases d with
  | mk p u e dm a v as vs nb st cp aq vq da dv =>
    cases st with
    | mk q c th bl bf ec =>
      simp only at hc hl
      subst hc
      match q, hl with
      | [], _ =>
        simp [AVDemuxThread.seek, AVDemuxThread.newSeekRequest, BlockingQueue.size,
          BlockingQueue.capacity, BlockingQueue.put]
      | [x], _ =>
        simp [AVDemuxThread.seek, AVDemuxThread.newSeekRequest, BlockingQueue.size,
          BlockingQueue.capacity, BlockingQueue.put, BlockingQueue.take]

theorem AVDemuxThread.seek_slot (d : AVDemuxThread) (pos : Int) (h : d.SlotInv) :
    (d.seek pos).SlotInv := by
  have := AVDemuxThread.seek_seek_tasks d pos h
  unfold AVDemuxThread.SlotInv at *
  rw [this]; simp [h.1]

theorem AVDemuxThread.seek_demuxer (d : AVDemuxThread) (pos : Int) :
    (d.seek pos).demuxer = d.demuxer := by
  unfold AVDemuxThread.seek AVDemuxThread.newSeekRequest; simp

theorem AVDemuxThread.frameDeliveredSeekOnPause_seek_tasks (d d' : AVDemuxThread)
    (hd : d.frameDeliveredSeekOnPause = some d') : d'.seek_tasks = d.seek_tasks := by
  unfold AVDemuxThread.frameDeliveredSeekOnPause at hd
  split at hd
  · cases hd
  · simp only [AVDemuxThread.onVideoOrAudio_user_paused] at hd
    split at hd <;> cases hd <;> simp [AVDemuxThread.pause_seek_tasks]

theorem AVDemuxThread.frameDeliveredNextFrame_seek_tasks (d d' : AVDemuxThread)
    (hd : d.frameDeliveredNextFrame = some d') : d'.seek_tasks = d.seek_tasks := by
  unfold AVDemuxThread.frameDeliveredNextFrame at hd
  split at hd
  · cases hd
  · simp only [AVDemuxThread.onVideoOrAudio_user_paused] at hd
    split at hd
    · split at hd
      · cases hd; rfl
      · cases hd
    · split at hd <;> cases hd <;> simp [AVDemuxThread.pause_seek_tasks]

theorem AVDemuxThread.stop_seek_tasks (fuel : Nat) (d d' : AVDemuxThread)
    (hd : d.stop fuel = some d') : d'.seek_tasks = d.seek_tasks := by
  unfold AVDemuxThread.stop at hd
  split at hd
  · cases hd
  · split at hd
    · cases hd
    · cases hd
      simp [AVDemuxThread.pause_seek_tasks]

theorem AVDemuxThread.runStart_seek_tasks (d : AVDemuxThread) :
    d.runStart.seek_tasks = d.seek_tasks := by
  unfold AVDemuxThread.runStart; simp [AVDemuxThread.pause_seek_tasks]

theorem AVDemuxThread.loopBody_seek_tasks (d : AVDemuxThread) :
    d.loopBody.2.seek_tasks = d.processNextSeekTask.seek_tasks := by
  unfold AVDemuxThread.loopBody; simp only []
  split_ifs <;> simp

theorem AVDemuxThread.loopBody_slot (d : AVDemuxThread) (h : d.SlotInv) :
    d.loopBody.2.SlotInv := by
  have := AVDemuxThread.processNextSeekTask_slot d h
  unfold AVDemuxThread.SlotInv at *
  rw [AVDemuxThread.loopBody_seek_tasks]; exact this

theorem AVDemuxThread.runLoop_slot (fuel : Nat) (d d' : AVDemuxThread) (h : d.SlotInv)
    (hd : AVDemuxThread.runLoop fuel d = some d') : d'.SlotInv := by
  induction fuel generalizing d with
  | zero =>
    unfold AVDemuxThread.runLoop at hd
    split at hd
    · cases hd; exact h
    · cases hd
  | succ n ih =>
    unfold AVDemuxThread.runLoop at hd
    split at hd
    · cases hd; exact h
    · have hb := AVDemuxThread.loopBody_slot d h
      split at hd
      · rename_i heq
        cases hd
        rw [heq] at hb; exact hb
      · rename_i heq
        rw [heq] at hb
        exact ih _ hb hd

theorem AVDemuxThread.runFinish_seek_tasks (fuel : Nat) (d d' : AVDemuxThread)
    (hd : d.runFinish fuel = some d') : d'.seek_tasks = d.seek_tasks := by
  unfold AVDemuxThread.runFinish at hd
  simp only [] at hd
  split at hd
  · cases hd
  · split at hd
    · cases hd
    · cases hd
      simp

theorem AVDemuxThread.run_slot (fuel : Nat) (d d' : AVDemuxThread) (h : d.SlotInv)
    (hd : d.run fuel = some d') : d'.SlotInv := by
  unfold AVDemuxThread.run at hd
  split at hd
  · cases hd
  · rename_i d1 h1
    have h2 : d1.SlotInv :=
      AVDemuxThread.runLoop_slot fuel _ d1
        (by unfold AVDemuxThread.SlotInv at *; rw [AVDemuxThread.runStart_seek_tasks]; exact h) h1
    unfold AVDemuxThread.SlotInv at *
    rw [AVDemuxThread.runFinish_seek_tasks fuel d1 d' hd]; exact h2

theorem Event.apply_slot (e : Event) (d d' : AVDemuxThread) (h : d.SlotInv)
    (hd : e.apply d = some d') : d'.SlotInv := by
  cases e <;> simp only [Event.apply] at hd
  case setAudioThread t => cases hd; exact h
  case setVideoThread t => cases hd; exact h
  case pause p =>
    cases hd; unfold AVDemuxThread.SlotInv at *; rw [AVDemuxThread.pause_seek_tasks]; exact h
  case nextFrame =>
    cases hd; unfold AVDemuxThread.SlotInv at *; rw [AVDemuxThread.nextFrame_seek_tasks]; exact h
  case seek pos => cases hd; exact AVDemuxThread.seek_slot d pos h
  case processNextSeekTask => cases hd; exact AVDemuxThread.processNextSeekTask_slot d h
  case frameDeliveredSeekOnPause =>
    unfold AVDemuxThread.SlotInv at *
    rw [AVDemuxThread.frameDeliveredSeekOnPause_seek_tasks d d' hd]; exact h
  case frameDeliveredNextFrame =>
    unfold AVDemuxThread.SlotInv at *
    rw [AVDemuxThread.frameDeliveredNextFrame_seek_tasks d d' hd]; exact h
  case stop fuel =>
    unfold AVDemuxThread.SlotInv at *
    rw [AVDemuxThread.stop_seek_tasks fuel d d' hd]; exact h
  case runStart =>
    cases hd; unfold AVDemuxThread.SlotInv at *; rw [AVDemuxThread.runStart_seek_tasks]; exact h
  case loopBody => cases hd; exact AVDemuxThread.loopBody_slot d h
  case runFinish fuel =>
    unfold AVDemuxThread.SlotInv at *
    rw [AVDemuxThread.runFinish_seek_tasks fuel d d' hd]; exact h
  case run fuel => exact AVDemuxThread.run_slot fuel d d' h hd
  case queueEmpty =>
    unfold QueueEmptyCall.call at hd
    simp only [] at hd
    split at hd
    · cases hd; exact h
    · cases hd
      unfold AVDemuxThread.SlotInv at *; simpa using h

theorem execEvents_slot (es : List Event) (d d' : AVDemuxThread) (h : d.SlotInv)
    (hd : execEvents es d = some d') : d'.SlotInv := by
  induction es generalizing d with
  | nil => unfold execEvents at hd; cases hd; exact h
  | cons e es ih =>
    unfold execEvents at hd
    split at hd
    · cases hd
    · rename_i d1 h1
      exact ih d1 (Event.apply_slot e d d1 h h1) hd

theorem AVDemuxThread.new_slot (dmx : AVDemuxer) : (AVDemuxThread.new dmx).SlotInv := by
  unfold AVDemuxThread.SlotInv AVDemuxThread.new
  simp [BlockingQueue.blockFull, BlockingQueue.setCapacity]

theorem AVDemuxThread.foldl_seek_slot (ps : List Int) (d : AVDemuxThread) (h : d.SlotInv) :
    (ps.foldl AVDemuxThread.seek d).SlotInv := by
  induction ps generalizing d with
  | nil => exact h
  | cons p qs ih => exact ih _ (AVDemuxThread.seek_slot d p h)

theorem AVDemuxThread.foldl_seek_demuxer (ps : List Int) (d : AVDemuxThread) :
    (ps.foldl AVDemuxThread.seek d).demuxer = d.demuxer := by
  induction ps generalizing d with
  | nil => rfl
  | cons p qs ih => rw [List.foldl_cons, ih, AVDemuxThread.seek_demuxer]

theorem AVDemuxThread.foldl_seek_queue (ps : List Int) (hne : ps ≠ []) (d : AVDemuxThread)
    (h : d.SlotInv) :
    (ps.foldl AVDemuxThread.seek d).seek_tasks.queue = [ps.getLast hne] := by
  induction ps generalizing d with
  | nil => exact absurd rfl hne
  | cons p qs ih =>
    cases qs with
    | nil => simp [AVDemuxThread.seek_seek_tasks d p h]
    | cons q rs =>
      rw [List.foldl_cons, ih (by simp) _ (AVDemuxThread.seek_slot d p h)]
      simp [List.getLast_cons]

theorem AVDemuxThread.processNextSeekTask_single (d : AVDemuxThread) (x : Int)
    (h : d.seek_tasks.queue = [x]) :
    d.processNextSeekTask
      = AVDemuxThread.seekInternal { d with seek_tasks := { d.seek_tasks with queue := [] } } x := by
  unfold AVDemuxThread.processNextSeekTask
  simp [BlockingQueue.isEmpty, BlockingQueue.take, h]

theorem AVDemuxThread.processNextSeekTask_empty (d : AVDemuxThread)
    (h : d.seek_tasks.queue = []) : d.processNextSeekTask = d := by
  unfold AVDemuxThread.processNextSeekTask
  simp [BlockingQueue.isEmpty, h]

/-- C3: on every reachable coordinator, after a non-empty sequence of
`seek(P1) ... seek(Pn)` with no read-loop step in between, the seek slot
holds exactly the task for `Pn` (after every one of the calls its size is at
most its capacity, which is 1) and the source reader has not been asked to
seek; the next `processNextSeekTask` invokes the source reader's seek exactly
once, with `Pn`, and empties the slot, so none of the earlier positions is
executed; a further `processNextSeekTask` changes nothing. -/
theorem C3_seek_collapse (dmx : AVDemuxer) (es : List Event) (d : AVDemuxThread)
    (hreach : execEvents es (AVDemuxThread.new dmx) = some d)
    (ps : List Int) (hne : ps ≠ []) :
    (∀ qs, qs <+: ps →
        (qs.foldl AVDemuxThread.seek d).seek_tasks.capacity = 1
        ∧ (qs.foldl AVDemuxThread.seek d).seek_tasks.size
            ≤ (qs.foldl AVDemuxThread.seek d).seek_tasks.capacity)
    ∧ (ps.foldl AVDemuxThread.seek d).seek_tasks.queue = [ps.getLast hne]
    ∧ (ps.foldl AVDemuxThread.seek d).demuxer.seeks = d.demuxer.seeks
    ∧ (ps.foldl AVDemuxThread.seek d).processNextSeekTask.demuxer.seeks
        = d.demuxer.seeks ++ [ps.getLast hne]
    ∧ (ps.foldl AVDemuxThread.seek d).processNextSeekTask.seek_tasks.queue = []
    ∧ (ps.foldl AVDemuxThread.seek d).processNextSeekTask.processNextSeekTask
        = (ps.foldl AVDemuxThread.seek d).processNextSeekTask := by
  have hs : d.SlotInv := execEvents_slot es _ d (AVDemuxThread.new_slot dmx) hreach
  have hq := AVDemuxThread.foldl_seek_queue ps hne d hs
  have hp := AVDemuxThread.processNextSeekTask_single _ _ hq
  have hempty : (ps.foldl AVDemuxThread.seek d).processNextSeekTask.seek_tasks.queue = [] := by
    rw [hp, AVDemuxThread.seekInternal_seek_tasks]
  refine ⟨?_, hq, ?_, ?_, hempty, ?_⟩
  · intro qs _
    have := AVDemuxThread.foldl_seek_slot qs d hs
    unfold AVDemuxThread.SlotInv at this
    unfold BlockingQueue.capacity BlockingQueue.size
    rw [this.1]
    exact ⟨rfl, this.2⟩
  · rw [AVDemuxThread.foldl_seek_demuxer]
  · rw [hp, AVDemuxThread.seekInternal_seeks]
    simp only
    rw [AVDemuxThread.foldl_seek_demuxer]
  · exact AVDemuxThread.processNextSeekTask_empty _ hempty

/-- Witness of C3: three seek requests in a row on the example coordinator. -/
theorem C3_witness :
    execEvents [.setAudioThread (some exAudio), .setVideoThread (some exVideo)]
        (AVDemuxThread.new exDemuxer) = some exBoth
    ∧ ([1000, 2000, 3000].foldl AVDemuxThread.seek exBoth).seek_tasks.queue = [3000]
    ∧ ([1000, 2000, 3000].foldl AVDemuxThread.seek exBoth).processNextSeekTask.demuxer.seeks
        = exBoth.demuxer.seeks ++ [3000] :=
  have h := C3_seek_collapse exDemuxer
    [.setAudioThread (some exAudio), .setVideoThread (some exVideo)] exBoth (by decide)
    [1000, 2000, 3000] (by decide)
  ⟨by decide, h.2.1, h.2.2.2.1⟩

/-- The end-marker branch of the read loop. -/
theorem AVDemuxThread.loopBody_end (d : AVDemuxThread) (i : Int) (pkt : Packet)
    (rest : List (Option (Int × Packet)))
    (hend : d.end_ = false)
    (hpause : d.processNextSeekTask.tryPause = false)
    (hrt : d.processNextSeekTask.runningThreads ≠ 0)
    (hframes : d.processNextSeekTask.demuxer.frames = some (i, pkt) :: rest)
    (hpkt : pkt.isEnd = true) :
    d.loopBody =
      (.brk,
        { d.processNextSeekTask with
          end_ := true
          demuxer := { d.processNextSeekTask.demuxer with
                        frames := rest, cur_stream := i, cur_packet := pkt }
          audio_thread := d.processNextSeekTask.audio_thread.map (fun t => t.setDemuxEnded true)
          video_thread :=
            d.processNextSeekTask.video_thread.map (fun t => t.setDemuxEnded true) }) := by
  have hend1 : d.processNextSeekTask.end_ = false := by
    rw [AVDemuxThread.processNextSeekTask_end]; exact hend
  unfold AVDemuxThread.loopBody
  generalize d.processNextSeekTask = d1 at *
  have hread : d1.demuxer.readFrame
      = (true, { d1.demuxer with frames := rest, cur_stream := i, cur_packet := pkt }) := by
    unfold AVDemuxer.readFrame; rw [hframes]
  simp only [hpause, hrt, hend1, hread, AVDemuxer.stream, AVDemuxer.packet, hpkt,
    if_true, if_false, Bool.not_true, Bool.false_eq_true, ite_true, ite_false]
  cases d1 with
  | mk p u e dm a v as vs nb st cp aq vq da dv =>
    cases a <;> cases v <;> simp [AVDemuxThread.onAudio, AVDemuxThread.onVideo]

theorem AVDemuxThread.waitThreadLoop_spec (fuel : Nat) (t : AVThread)
    (h : t.wait_ticks < fuel) :
    ∃ t', AVDemuxThread.waitThreadLoop fuel t = some t' ∧ t'.isRunning = false
      ∧ t'.packets = t.packets ∧ t'.demux_ended = t.demux_ended ∧ t'.paused = t.paused := by
  induction fuel generalizing t with
  | zero => omega
  | succ n ih =>
    unfold AVDemuxThread.waitThreadLoop
    cases hr : t.isRunning with
    | false => exact ⟨t, by simp, hr, rfl, rfl, rfl⟩
    | true =>
      simp only [if_true]
      cases hw : t.wait_ticks with
      | zero =>
        have hs : (t.wait).isRunning = false := by
          simp [AVThread.wait, AVThread.isRunning, hw]
        rw [AVDemuxThread.waitThreadLoop_stopped n _ hs]
        refine ⟨_, rfl, hs, ?_, ?_, ?_⟩ <;> simp [AVThread.wait, hw]
      | succ k =>
        have hlt : (t.wait).wait_ticks < n := by
          simp [AVThread.wait, hw]; omega
        obtain ⟨t', h1, h2, h3, h4, h5⟩ := ih t.wait hlt
        refine ⟨t', h1, h2, ?_, ?_, ?_⟩
        · rw [h3]; simp [AVThread.wait, hw]
        · rw [h4]; simp [AVThread.wait, hw]
        · rw [h5]; simp [AVThread.wait, hw]

/-- An iteration of the read loop that reads a non-end packet of the video
stream (which is not the audio stream) runs the video block on the state
after the seek-task step and the read. -/
theorem AVDemuxThread.loopBody_video (d : AVDemuxThread) (v : AVThread) (i : Int)
    (pkt : Packet) (rest : List (Option (Int × Packet)))
    (hend : d.end_ = false)
    (hpause : d.processNextSeekTask.tryPause = false)
    (hv : d.processNextSeekTask.video_thread = some v)
    (hrunv : v.isRunning = true)
    (hframes : d.processNextSeekTask.demuxer.frames = some (i, pkt) :: rest)
    (hia : i ≠ d.processNextSeekTask.audio_stream)
    (hi : i = d.processNextSeekTask.video_stream) (hpkt : pkt.isEnd = false) :
    d.loopBody =
      (.next,
        AVDemuxThread.videoBranch
          { d.processNextSeekTask with
            demuxer := { d.processNextSeekTask.demuxer with
                          frames := rest, cur_stream := i, cur_packet := pkt } } pkt) := by
  have hend1 : d.processNextSeekTask.end_ = false := by
    rw [AVDemuxThread.processNextSeekTask_end]; exact hend
  unfold AVDemuxThread.loopBody
  generalize d.processNextSeekTask = d1 at *
  have hrt : d1.runningThreads ≠ 0 := by
    unfold AVDemuxThread.runningThreads; simp [hv, hrunv]
  have hread : d1.demuxer.readFrame
      = (true, { d1.demuxer with frames := rest, cur_stream := i, cur_packet := pkt }) := by
    unfold AVDemuxer.readFrame; rw [hframes]
  simp only [hpause, hrt, hend1, hread, AVDemuxer.stream, AVDemuxer.packet, hpkt, hia, ← hi,
    if_true, if_false, Bool.not_true, Bool.false_eq_true, Bool.not_false, ite_true,
    ite_false]

/-- The audio block when `aqueue` points to the queue of the attached, running
audio pipeline. -/
theorem AVDemuxThread.audioBranch_member (s : AVDemuxThread) (pkt : Packet) (a : AVThread)
    (hq : s.aqueue = some a.addr) (ha : s.audio_thread = some a) (hrun : a.isRunning = true) :
    s.audioBranch pkt
      = { s with
          audio_thread :=
            some { a with
                    packets := { a.packets with
                                  block_full := s.audioBlockFullArg
                                  queue := a.packets.queue ++ [pkt] } } } := by
  rw [AVDemuxThread.audioBranch_running s pkt a (by rw [hq]; rfl) ha hrun]
  simp [AVDemuxThread.onAqueue, AVDemuxThread.onAudio, hq, ha, AVThread.onQueue,
    BlockingQueue.blockFull, BlockingQueue.put]

/-- The video block when `vqueue` points to the queue of the attached, running
video pipeline. -/
theorem AVDemuxThread.videoBranch_member (s : AVDemuxThread) (pkt : Packet) (v : AVThread)
    (hq : s.vqueue = some v.addr) (hv : s.video_thread = some v) (hrun : v.isRunning = true) :
    s.videoBranch pkt
      = { s with
          video_thread :=
            some { v with
                    packets := { v.packets with
                                  block_full := s.videoBlockFullArg
                                  queue := v.packets.queue ++ [pkt] } } } := by
  rw [AVDemuxThread.videoBranch_running s pkt v (by rw [hq]; rfl) hv hrun]
  simp [AVDemuxThread.onVqueue, AVDemuxThread.onVideo, hq, hv, AVThread.onQueue,
    BlockingQueue.blockFull, BlockingQueue.put]

/-- One iteration of the read loop on an audio packet, the locals of `run()`
pointing to the attached pipelines. -/
theorem AVDemuxThread.loopBody_audio_step (d : AVDemuxThread) (a : AVThread) (i : Int)
    (pkt : Packet) (rest : List (Option (Int × Packet)))
    (hend : d.end_ = false) (hp : d.paused = false) (hs : d.seek_tasks.queue = [])
    (ha : d.audio_thread = some a) (hrun : a.isRunning = true)
    (hq : d.aqueue = some a.addr)
    (hframes : d.demuxer.frames = some (i, pkt) :: rest)
    (hi : i = d.audio_stream) (hpkt : pkt.isEnd = false) :
    ∃ d2 a2, d.loopBody = (.next, d2) ∧ d2.end_ = false ∧ d2.paused = false
      ∧ d2.seek_tasks.queue = [] ∧ d2.audio_thread = some a2
      ∧ d2.video_thread = d.video_thread
      ∧ a2.isRunning = true ∧ a2.addr = a.addr
      ∧ a2.packets.queue = a.packets.queue ++ [pkt]
      ∧ a2.wait_ticks = a.wait_ticks
      ∧ d2.audio_stream = d.audio_stream ∧ d2.video_stream = d.video_stream
      ∧ d2.demuxer.frames = rest
      ∧ d2.user_paused = d.user_paused
      ∧ d2.aqueue = d.aqueue ∧ d2.vqueue = d.vqueue := by
  have hd1 : d.processNextSeekTask = d := AVDemuxThread.processNextSeekTask_empty d hs
  have hb := AVDemuxThread.loopBody_audio d a i pkt rest hend
    (by rw [hd1]; exact hp) (by rw [hd1]; exact ha) hrun (by rw [hd1]; exact hframes)
    (by rw [hd1]; exact hi) hpkt
  rw [hd1] at hb
  rw [AVDemuxThread.audioBranch_member
    { d with demuxer := { d.demuxer with frames := rest, cur_stream := i, cur_packet := pkt } }
    pkt a hq ha hrun] at hb
  exact ⟨_, _, hb, hend, hp, hs, rfl, rfl, hrun, rfl, rfl, rfl, rfl, rfl, rfl, rfl, rfl, rfl⟩

/-- One iteration of the read loop on a video packet, the locals of `run()`
pointing to the attached pipelines. -/
theorem AVDemuxThread.loopBody_video_step (d : AVDemuxThread) (v : AVThread) (i : Int)
    (pkt : Packet) (rest : List (Option (Int × Packet)))
    (hend : d.end_ = false) (hp : d.paused = false) (hs : d.seek_tasks.queue = [])
    (hv : d.video_thread = some v) (hrun : v.isRunning = true)
    (hq : d.vqueue = some v.addr)
    (hframes : d.demuxer.frames = some (i, pkt) :: rest)
    (hia : i ≠ d.audio_stream)
    (hi : i = d.video_stream) (hpkt : pkt.isEnd = false) :
    ∃ d2 v2, d.loopBody = (.next, d2) ∧ d2.end_ = false ∧ d2.paused = false
      ∧ d2.seek_tasks.queue = [] ∧ d2.video_thread = some v2
      ∧ d2.audio_thread = d.audio_thread
      ∧ v2.isRunning = true ∧ v2.addr = v.addr
      ∧ v2.packets.queue = v.packets.queue ++ [pkt]
      ∧ v2.wait_ticks = v.wait_ticks
      ∧ d2.audio_stream = d.audio_stream ∧ d2.video_stream = d.video_stream
      ∧ d2.demuxer.frames = rest
      ∧ d2.user_paused = d.user_paused
      ∧ d2.aqueue = d.aqueue ∧ d2.vqueue = d.vqueue := by
  have hd1 : d.processNextSeekTask = d := AVDemuxThread.processNextSeekTask_empty d hs
  have hb := AVDemuxThread.loopBody_video d v i pkt rest hend
    (by rw [hd1]; exact hp) (by rw [hd1]; exact hv) hrun (by rw [hd1]; exact hframes)
    (by rw [hd1]; exact hia) (by rw [hd1]; exact hi) hpkt
  rw [hd1] at hb
  rw [AVDemuxThread.videoBranch_member
    { d with demuxer := { d.demuxer with frames := rest, cur_stream := i, cur_packet := pkt } }
    pkt v hq hv hrun] at hb
  exact ⟨_, _, hb, hend, hp, hs, rfl, rfl, hrun, rfl, rfl, rfl, rfl, rfl, rfl, rfl, rfl, rfl⟩

/-- The read loop over a source of audio and video packets followed by an end
marker, both pipelines running and the locals of `run()` pointing to them, no
pending seek, not paused. -/
theorem AVDemuxThread.runLoop_source (src : List (Int × Packet)) :
    ∀ (d : AVDemuxThread) (a v : AVThread) (e : Int × Packet)
      (rest : List (Option (Int × Packet))) (fuel : Nat),
      d.end_ = false → d.paused = false → d.seek_tasks.queue = [] →
      d.audio_thread = some a → d.video_thread = some v →
      d.aqueue = some a.addr → d.vqueue = some v.addr →
      a.isRunning = true → v.isRunning = true →
      d.audio_stream ≠ d.video_stream →
      (∀ x ∈ src, (x.1 = d.audio_stream ∨ x.1 = d.video_stream) ∧ x.2.isEnd = false) →
      e.2.isEnd = true →
      d.demuxer.frames = src.map some ++ some e :: rest →
      src.length < fuel →
      ∃ d' a' v', AVDemuxThread.runLoop fuel d = some d'
        ∧ d'.audio_thread = some a' ∧ d'.video_thread = some v'
        ∧ a'.packets.queue
            = a.packets.queue
              ++ (src.filter (fun x => decide (x.1 = d.audio_stream))).map Prod.snd
        ∧ v'.packets.queue
            = v.packets.queue
              ++ (src.filter (fun x => decide (x.1 = d.video_stream))).map Prod.snd
        ∧ a'.demux_ended = true ∧ v'.demux_ended = true
        ∧ a'.wait_ticks = a.wait_ticks ∧ v'.wait_ticks = v.wait_ticks
        ∧ d'.end_ = true ∧ d'.paused = d.paused ∧ d'.user_paused = d.user_paused
        ∧ d'.demuxer.frames = rest
        ∧ d'.aqueue = some a'.addr ∧ d'.vqueue = some v'.addr := by
  induction src with
  | nil =>
    intro d a v e rest fuel hend hp hs ha hv hqa hqv hra hrv _ _ he hf hfuel
    obtain ⟨n, rfl⟩ : ∃ n, fuel = n + 1 := ⟨fuel - 1, by omega⟩
    have hd1 : d.processNextSeekTask = d := AVDemuxThread.processNextSeekTask_empty d hs
    have hrt : d.runningThreads ≠ 0 := by
      unfold AVDemuxThread.runningThreads; simp [ha, hra]
    have hb := AVDemuxThread.loopBody_end d e.1 e.2 rest hend
      (by rw [hd1]; exact hp) (by rw [hd1]; exact hrt)
      (by rw [hd1, hf]; rfl) he
    rw [hd1] at hb
    refine ⟨d.loopBody.2, a.setDemuxEnded true, v.setDemuxEnded true, ?_, ?_, ?_, ?_, ?_, rfl,
      rfl, rfl, rfl, ?_⟩
    · unfold AVDemuxThread.runLoop
      simp only [hend, hb, Bool.false_eq_true, if_false]
    · rw [hb]; simp [ha]
    · rw [hb]; simp [hv]
    · simp [AVThread.setDemuxEnded]
    · simp [AVThread.setDemuxEnded]
    · rw [hb]; simp [hqa, hqv, AVThread.setDemuxEnded]
  | cons x xs ih =>
    intro d a v e rest fuel hend hp hs ha hv hqa hqv hra hrv hne hsrc he hf hfuel
    obtain ⟨n, rfl⟩ : ∃ n, fuel = n + 1 := ⟨fuel - 1, by omega⟩
    have hx := hsrc x (List.mem_cons_self x xs)
    have hxs : ∀ y ∈ xs, (y.1 = d.audio_stream ∨ y.1 = d.video_stream) ∧ y.2.isEnd = false :=
      fun y hy => hsrc y (List.mem_cons_of_mem x hy)
    have hf' : d.demuxer.frames = some (x.1, x.2) :: (xs.map some ++ some e :: rest) := by
      rw [hf]; rfl
    have hn : xs.length < n := by simp at hfuel; omega
    by_cases hxa : x.1 = d.audio_stream
    · have hxv : ¬ x.1 = d.video_stream := fun h => hne (hxa.symm.trans h)
      obtain ⟨d2, a2, k1, k2, k3, k4, k5, k6, k7, k7a, k8, k9, k10, k11, k12, k14, k15, k16⟩ :=
        AVDemuxThread.loopBody_audio_step d a x.1 x.2 _ hend hp hs ha hra hqa hf' hxa hx.2
      obtain ⟨d', a', v', h1, h2, h3, h4, h5, h6, h7, h8, h9, h10, h11, h12, h13, h14, h15⟩ :=
        ih d2 a2 v e rest n k2 k3 k4 k5 (by rw [k6]; exact hv) (by rw [k15, k7a]; exact hqa)
          (by rw [k16]; exact hqv) k7 hrv (by rw [k10, k11]; exact hne)
          (by rw [k10, k11]; exact hxs) he k12 hn
      refine ⟨d', a', v', ?_, h2, h3, ?_, ?_, h6, h7, ?_, h9, h10, ?_, ?_, h13, h14, h15⟩
      · unfold AVDemuxThread.runLoop
        simp only [hend, k1, Bool.false_eq_true, if_false]
        exact h1
      · rw [h4, k8, k10]; simp [List.filter_cons, hxa]
      · rw [h5, k11]; simp [List.filter_cons, hxv]
      · rw [h8, k9]
      · rw [h11, k3, hp]
      · rw [h12, k14]
    · have hxv : x.1 = d.video_stream := hx.1.resolve_left hxa
      obtain ⟨d2, v2, k1, k2, k3, k4, k5, k6, k7, k7a, k8, k9, k10, k11, k12, k14, k15, k16⟩ :=
        AVDemuxThread.loopBody_video_step d v x.1 x.2 _ hend hp hs hv hrv hqv hf' hxa hxv hx.2
      obtain ⟨d', a', v', h1, h2, h3, h4, h5, h6, h7, h8, h9, h10, h11, h12, h13, h14, h15⟩ :=
        ih d2 a v2 e rest n k2 k3 k4 (by rw [k6]; exact ha) k5 (by rw [k15]; exact hqa)
          (by rw [k16, k7a]; exact hqv) hra k7 (by rw [k10, k11]; exact hne)
          (by rw [k10, k11]; exact hxs) he k12 hn
      refine ⟨d', a', v', ?_, h2, h3, ?_, ?_, h6, h7, h8, ?_, h10, ?_, ?_, h13, h14, h15⟩
      · unfold AVDemuxThread.runLoop
        simp only [hend, k1, Bool.false_eq_true, if_false]
        exact h1
      · rw [h4, k10]; simp [List.filter_cons, hxa]
      · rw [h5, k8, k11]; simp [List.filter_cons, hxv]
      · rw [h9, k9]
      · rw [h11, k3, hp]
      · rw [h12, k14]

theorem AVDemuxThread.runStart_spec (d : AVDemuxThread) (a v : AVThread)
    (ha : d.audio_thread = some a) (hv : d.video_thread = some v) :
    ∃ a0 v0, d.runStart.audio_thread = some a0 ∧ d.runStart.video_thread = some v0
      ∧ a0.isRunning = true ∧ v0.isRunning = true
      ∧ a0.packets.queue = [] ∧ v0.packets.queue = []
      ∧ a0.wait_ticks = a.wait_ticks ∧ v0.wait_ticks = v.wait_ticks
      ∧ d.runStart.end_ = false ∧ d.runStart.paused = false
      ∧ d.runStart.seek_tasks = d.seek_tasks ∧ d.runStart.demuxer = d.demuxer
      ∧ d.runStart.audio_stream = d.demuxer.audioStream
      ∧ d.runStart.video_stream = d.demuxer.videoStream
      ∧ d.runStart.aqueue = some a0.addr ∧ d.runStart.vqueue = some v0.addr := by
  cases d with
  | mk p u e dm a1 v1 as vs nb st cp aq vq da dv =>
    simp only at ha hv
    subst ha hv
    cases p <;> cases hra : a.running <;> cases hrv : v.running <;>
      simp [AVDemuxThread.runStart, AVDemuxThread.onAudio, AVDemuxThread.onVideo,
        AVDemuxThread.onAqueue, AVDemuxThread.onVqueue,
        AVDemuxThread.pause, AVThread.onQueue, AVThread.isRunning, AVThread.start,
        BlockingQueue.clear, BlockingQueue.setBlocking, hra, hrv]

theorem AVDemuxThread.runFinish_spec (fuel : Nat) (d : AVDemuxThread) (a v : AVThread)
    (ha : d.audio_thread = some a) (hv : d.video_thread = some v)
    (hqa : d.aqueue = some a.addr) (hqv : d.vqueue = some v.addr)
    (hat : a.wait_ticks < fuel) (hvt : v.wait_ticks < fuel) :
    ∃ d' a' v', d.runFinish fuel = some d'
      ∧ d'.audio_thread = some a' ∧ d'.video_thread = some v'
      ∧ a'.packets.queue = a.packets.queue ++ [Packet.default]
      ∧ v'.packets.queue = v.packets.queue ++ [Packet.default]
      ∧ a'.demux_ended = a.demux_ended ∧ v'.demux_ended = v.demux_ended
      ∧ a'.isRunning = false ∧ v'.isRunning = false
      ∧ d'.end_ = d.end_ := by
  obtain ⟨a', g1, g2, g3, g4, _⟩ := AVDemuxThread.waitThreadLoop_spec fuel
    (a.onQueue fun q => q.put Packet.default) (by simpa [AVThread.onQueue] using hat)
  obtain ⟨v', h1, h2, h3, h4, _⟩ := AVDemuxThread.waitThreadLoop_spec fuel
    (v.onQueue fun q => q.put Packet.default) (by simpa [AVThread.onQueue] using hvt)
  refine ⟨{ d with audio_thread := some a', video_thread := some v' }, a', v', ?_, rfl, rfl, ?_,
    ?_, ?_, ?_, g2, h2, rfl⟩
  · cases d with
    | mk p u e dm a1 v1 as vs nb st cp aq vq da dv =>
      simp only at ha hv hqa hqv
      subst ha hv hqa hqv
      simp [AVDemuxThread.runFinish, AVDemuxThread.onAudio, AVDemuxThread.onVideo,
        AVDemuxThread.onAqueue, AVDemuxThread.onVqueue, g1, h1]
  · rw [g3]; rfl
  · rw [h3]; rfl
  · rw [g4]; rfl
  · rw [h4]; rfl

/-- C5: for every source that yields a finite sequence `src` of non-end
packets, each of the audio stream or of the video stream, followed by an end
marker, with both pipelines attached (`run()` starts them and they keep
running through the read loop), no seek task pending, and `fuel` exceeding
the length of `src` and the number of timed waits each pipeline needs to
wind down: `run()` returns; the audio queue has received exactly the audio
packets of `src` in source order followed by exactly one end marker
(`Packet()`), the video queue exactly the video packets in source order
followed by exactly one end marker; both pipelines are marked source-ended,
and `isEnd()` is true. -/
theorem C5_end_to_end (d : AVDemuxThread) (a v : AVThread) (src : List (Int × Packet))
    (e : Int × Packet) (rest : List (Option (Int × Packet))) (fuel : Nat)
    (ha : d.audio_thread = some a) (hv : d.video_thread = some v)
    (hseek : d.seek_tasks.queue = [])
    (hne : d.demuxer.audioStream ≠ d.demuxer.videoStream)
    (hsrc : ∀ x ∈ src,
      (x.1 = d.demuxer.audioStream ∨ x.1 = d.demuxer.videoStream) ∧ x.2.isEnd = false)
    (he : e.2.isEnd = true)
    (hframes : d.demuxer.frames = src.map some ++ some e :: rest)
    (hfuel : src.length < fuel) (hat : a.wait_ticks < fuel) (hvt : v.wait_ticks < fuel) :
    ∃ d' a' v', d.run fuel = some d'
      ∧ d'.audio_thread = some a' ∧ d'.video_thread = some v'
      ∧ a'.packets.queue
          = (src.filter (fun x => decide (x.1 = d.demuxer.audioStream))).map Prod.snd
            ++ [Packet.default]
      ∧ v'.packets.queue
          = (src.filter (fun x => decide (x.1 = d.demuxer.videoStream))).map Prod.snd
            ++ [Packet.default]
      ∧ Packet.default.isEnd = true
      ∧ a'.demux_ended = true ∧ v'.demux_ended = true
      ∧ d'.isEnd = true := by
  obtain ⟨a0, v0, s1, s2, s3, s4, s5, s6, s7, s8, s9, s10, s11, s12, s13, s14, s15, s16⟩ :=
    AVDemuxThread.runStart_spec d a v ha hv
  obtain ⟨d1, a1, v1, l1, l2, l3, l4, l5, l6, l7, l8, l9, l10, _, _, _, l14, l15⟩ :=
    AVDemuxThread.runLoop_source src d.runStart a0 v0 e rest fuel s9 s10
      (by rw [s11]; exact hseek) s1 s2 s15 s16 s3 s4 (by rw [s13, s14]; exact hne)
      (by rw [s13, s14]; exact hsrc) he (by rw [s12]; exact hframes) hfuel
  obtain ⟨d2, a2, v2, f1, f2, f3, f4, f5, f6, f7, _, _, f10⟩ :=
    AVDemuxThread.runFinish_spec fuel d1 a1 v1 l2 l3 l14 l15 (by rw [l8, s7]; exact hat)
      (by rw [l9, s8]; exact hvt)
  refine ⟨d2, a2, v2, ?_, f2, f3, ?_, ?_, rfl, ?_, ?_, ?_⟩
  · unfold AVDemuxThread.run
    rw [l1]
    exact f1
  · rw [f4, l4, s5, s13]; simp
  · rw [f5, l5, s6, s14]; simp
  · rw [f6, l6]
  · rw [f7, l7]
  · unfold AVDemuxThread.isEnd; rw [f10, l10]

/-- Witness of C5: ten audio and ten video packets, then an end marker. -/
theorem C5_witness :
    (∀ x ∈ exSource,
      (x.1 = exBoth.demuxer.audioStream ∨ x.1 = exBoth.demuxer.videoStream)
        ∧ x.2.isEnd = false)
    ∧ exBoth.demuxer.frames = exSource.map some ++ [some (0, { data := 0, is_end := true })]
    ∧ ∃ d' a' v', exBoth.run 21 = some d'
      ∧ d'.audio_thread = some a' ∧ d'.video_thread = some v'
      ∧ a'.packets.queue
          = (exSource.filter (fun x => decide (x.1 = exBoth.demuxer.audioStream))).map Prod.snd
            ++ [Packet.default]
      ∧ v'.packets.queue
          = (exSource.filter (fun x => decide (x.1 = exBoth.demuxer.videoStream))).map Prod.snd
            ++ [Packet.default]
      ∧ Packet.default.isEnd = true
      ∧ a'.demux_ended = true ∧ v'.demux_ended = true
      ∧ d'.isEnd = true :=
  ⟨by decide, by decide,
    C5_end_to_end exBoth (exAudio.onQueue BlockingQueue.setEmptyCallback)
      (exVideo.onQueue BlockingQueue.setEmptyCallback) exSource
      (0, { data := 0, is_end := true }) [] 21
      (by decide) (by decide) (by decide) (by decide) (by decide) (by decide) (by decide)
      (by decide) (by decide) (by decide)⟩

/-- The run of the example coordinator, evaluated: the queues, the
source-ended marks and `isEnd()` after `run()` has returned. -/
theorem exBoth_run_evaluated :
    (exBoth.run 21).map (fun d => d.audio_thread.map (fun t => t.packets.queue))
      = some (some [exPacket 1, exPacket 3, exPacket 5, exPacket 7, exPacket 9, exPacket 11,
          exPacket 13, exPacket 15, exPacket 17, exPacket 19, Packet.default])
    ∧ (exBoth.run 21).map (fun d => d.video_thread.map (fun t => t.packets.queue))
      = some (some [exPacket 2, exPacket 4, exPacket 6, exPacket 8, exPacket 10, exPacket 12,
          exPacket 14, exPacket 16, exPacket 18, exPacket 20, Packet.default])
    ∧ (exBoth.run 21).map (fun d => d.audio_thread.map (fun t => t.demux_ended))
      = some (some true)
    ∧ (exBoth.run 21).map (fun d => d.video_thread.map (fun t => t.demux_ended))
      = some (some true)
    ∧ (exBoth.run 21).map AVDemuxThread.isEnd = some true := by
  decide

/-- The other case the locals of `run()` make: the audio pipeline replaced
after `run()` began.  The replaced pipeline was asked to stop; the next audio
packet is pushed onto its queue, the one `aqueue` points to, and the queue of
the new audio pipeline stays empty. -/
theorem exReplacedAudio_evaluated :
    exReplacedAudio.aqueue = some 1
    ∧ exReplacedAudio.audio_thread.map AVThread.addr = some 3
    ∧ exReplacedAudio.detached_audio.map AVThread.addr = [1]
    ∧ exReplacedAudio.detached_audio.map (fun t => t.stop_requested) = [true]
    ∧ exReplacedAudio.loopBody.2.audio_thread.map (fun t => t.packets.queue) = some []
    ∧ exReplacedAudio.loopBody.2.aqueueOwner.map (fun t => t.packets.queue)
        = some [exPacket 1]
    ∧ exReplacedAudio.loopBody.2.aqueueOwner.map (fun t => t.packets.block_full)
        = some false := by
  decide

end QtAV
